import Mathlib

/-!
Verification development for the PyDMG Game Boy emulator core.

The definitions below are a shallow embedding of the emulator sources:
`cpu.pyx` (CPU + the embedded Timer variant), `ppu.pyx`, `gameboy.pyx`,
`timer.pyx`, `apu.pyx` and `mmu.pyx`.  Machine integers are modelled as
`Nat`; every store into a C `uint8_t` / `uint16_t` field is truncated with
`&&& 0xFF` / `&&& 0xFFFF` exactly as the C types do, and C `int`
intermediates that can go negative are computed in `Int` and reduced with
`emod`, which matches two's-complement masking.  Byte arrays are modelled
as functions `Nat → Nat`; `MMU.read` truncates its result to 8 bits, as
its `uint8_t` return type does.  The machine is the composed system wired
by `gameboy.pyx`, with no cartridge loaded (`mbc is None`) and no joypad
object wired (`joypad is None`), which are genuine states of the source
(`MMU.__init__` leaves both unset); no claim below depends on either.
-/

namespace PyDMG

/-- Truncate a C `int` intermediate to an unsigned byte, as `& 0xFF` does
on a two's-complement value. -/
def m8i (x : Int) : Nat := (x % 256).toNat

/-- Truncate a C `int` intermediate to an unsigned 16-bit value, as
`& 0xFFFF` does on a two's-complement value. -/
def m16i (x : Int) : Nat := (x % 65536).toNat

/-- Pointwise update of a byte-array model. -/
def upd (g : Nat → Nat) (i v : Nat) : Nat → Nat :=
  fun j => if j = i then v else g j

/-- Pointwise update of the 2-d framebuffer model. -/
def updFb (g : Nat → Nat → Nat) (y x v : Nat) : Nat → Nat → Nat :=
  fun j i => if j = y ∧ i = x then v else g j i

/-- Convert a Cython `bint` to the integer the source mixes it with. -/
def b2n (b : Bool) : Nat := if b then 1 else 0

/-- The property that the low nibble of a flags byte is zero
(`F & 0x0F == 0`). -/
def lowClear (x : Nat) : Prop := x &&& 0xF = 0

theorem land_lor_right (x y z : Nat) :
    (x ||| y) &&& z = (x &&& z) ||| (y &&& z) := by
  apply Nat.eq_of_testBit_eq
  intro i
  simp [Nat.testBit_lor, Nat.testBit_land, Bool.and_or_distrib_right]

theorem lor_eq_zero_iff {x y : Nat} : x ||| y = 0 ↔ x = 0 ∧ y = 0 := by
  constructor
  · intro h
    constructor <;>
      · apply Nat.eq_of_testBit_eq
        intro i
        have hb := congrArg (fun t => Nat.testBit t i) h
        simp only [Nat.testBit_lor, Nat.zero_testBit, Bool.or_eq_false_iff] at hb
        simp [hb.1, hb.2]
  · rintro ⟨h1, h2⟩
    rw [h1, h2]
    rfl

theorem lowClear_lor {x y : Nat} :
    lowClear (x ||| y) ↔ (lowClear x ∧ lowClear y) := by
  unfold lowClear
  rw [land_lor_right, lor_eq_zero_iff]

theorem lowClear_land_right (x : Nat) {y : Nat} (h : lowClear y) :
    lowClear (x &&& y) := by
  unfold lowClear at *
  rw [Nat.land_assoc, h]
  simp

theorem lowClear_shl4 (x : Nat) : lowClear (x <<< 4) := by
  unfold lowClear
  apply Nat.eq_of_testBit_eq
  intro i
  simp only [Nat.testBit_land, Nat.testBit_shiftLeft, Nat.zero_testBit]
  by_cases hi : i < 4
  · have : ¬ 4 ≤ i := by omega
    simp [this]
  · have h4 : (15 : Nat).testBit i = false := by
      apply Nat.testBit_lt_two_pow
      calc (15 : Nat) < 2 ^ 4 := by norm_num
        _ ≤ 2 ^ i := Nat.pow_le_pow_right (by norm_num) (by omega)
    simp [h4]

/-- CPU register file and control flags, from `cpu.pyx` (`cdef` fields of
class `CPU`). -/
structure CpuR where
  a : Nat
  b : Nat
  c : Nat
  d : Nat
  e : Nat
  f : Nat
  h : Nat
  l : Nat
  sp : Nat
  pc : Nat
  halted : Bool
  ime : Bool
  haltBug : Bool
  eiDelay : Nat
  cycles : Nat

/-- MMU-owned byte arrays and the IE register, from `mmu.pyx` (class
`MMU`).  `ioRegs` is the `io` bytearray. -/
structure MemR where
  vram : Nat → Nat
  wram : Nat → Nat
  oam : Nat → Nat
  hram : Nat → Nat
  ioRegs : Nat → Nat
  ie : Nat

/-- Timer state, from `timer.pyx` (class `Timer`). -/
structure TmrR where
  tdiv : Nat
  tima : Nat
  tma : Nat
  tac : Nat
  timaCycles : Nat

/-- PPU state, from `ppu.pyx` (class `PPU`).  `statR` is the `_stat`
backing field, `pcycles` the `cycles` accumulator, `bgPal`/`objPal0`/
`objPal1` the palette caches, `bgPriority` the per-line priority buffer
and `fb` the framebuffer indexed as `fb y x`. -/
structure PpuR where
  lcdc : Nat
  statR : Nat
  scy : Nat
  scx : Nat
  ly : Nat
  lyc : Nat
  bgp : Nat
  obp0 : Nat
  obp1 : Nat
  wy : Nat
  wx : Nat
  mode : Nat
  pcycles : Nat
  windowLine : Nat
  frameReady : Bool
  fb : Nat → Nat → Nat
  bgPal : Nat → Nat
  objPal0 : Nat → Nat
  objPal1 : Nat → Nat
  bgPriority : Nat → Nat

/-- APU register state, from `apu.pyx` (class `APU`).  The analog
side (phase accumulators, audio buffer, SDL device) is not part of any
register and is omitted; `APU.write` never touches it. -/
structure ApuR where
  masterEnable : Bool
  volLeft : Nat
  volRight : Nat
  panLeft : Nat → Bool
  panRight : Nat → Bool
  ch1Enabled : Bool
  ch1Dac : Bool
  ch1Duty : Nat
  ch1Freq : Nat
  ch1Vol : Nat
  ch1VolInit : Nat
  ch1EnvAdd : Bool
  ch1EnvPeriod : Nat
  ch1Length : Nat
  ch1LengthEn : Bool
  ch1SweepPeriod : Nat
  ch1SweepNeg : Bool
  ch1SweepShift : Nat
  ch2Enabled : Bool
  ch2Dac : Bool
  ch2Duty : Nat
  ch2Freq : Nat
  ch2Vol : Nat
  ch2VolInit : Nat
  ch2EnvAdd : Bool
  ch2EnvPeriod : Nat
  ch2Length : Nat
  ch2LengthEn : Bool
  ch3Enabled : Bool
  ch3Dac : Bool
  ch3Freq : Nat
  ch3VolCode : Nat
  ch3Length : Nat
  ch3LengthEn : Bool
  ch3Wave : Nat → Nat
  ch4Enabled : Bool
  ch4Dac : Bool
  ch4Vol : Nat
  ch4VolInit : Nat
  ch4EnvAdd : Bool
  ch4EnvPeriod : Nat
  ch4Length : Nat
  ch4LengthEn : Bool
  ch4ClockShift : Nat
  ch4Width : Bool
  ch4Divisor : Nat
  ch4Lfsr : Nat
  frameSeq : Nat

/-- The composed machine, wired as in `gameboy.pyx`: MMU shared by CPU,
PPU, Timer and APU. -/
structure Mach where
  cpu : CpuR
  mem : MemR
  tmr : TmrR
  ppu : PpuR
  apu : ApuR

/-- APU register read (`APU.read` in `apu.pyx`). -/
def apuRead (u : ApuR) (addr : Nat) : Nat :=
  let a := addr &&& 0x3F
  if a = 0x10 then
    0x80 ||| (u.ch1SweepPeriod <<< 4) ||| (b2n u.ch1SweepNeg <<< 3) ||| u.ch1SweepShift
  else if a = 0x11 then (u.ch1Duty <<< 6) ||| 0x3F
  else if a = 0x12 then
    (u.ch1VolInit <<< 4) ||| (b2n u.ch1EnvAdd <<< 3) ||| u.ch1EnvPeriod
  else if a = 0x14 then 0xBF ||| (b2n u.ch1LengthEn <<< 6)
  else if a = 0x16 then (u.ch2Duty <<< 6) ||| 0x3F
  else if a = 0x17 then
    (u.ch2VolInit <<< 4) ||| (b2n u.ch2EnvAdd <<< 3) ||| u.ch2EnvPeriod
  else if a = 0x19 then 0xBF ||| (b2n u.ch2LengthEn <<< 6)
  else if a = 0x1A then 0x7F ||| (b2n u.ch3Dac <<< 7)
  else if a = 0x1C then 0x9F ||| (u.ch3VolCode <<< 5)
  else if a = 0x1E then 0xBF ||| (b2n u.ch3LengthEn <<< 6)
  else if a = 0x21 then
    (u.ch4VolInit <<< 4) ||| (b2n u.ch4EnvAdd <<< 3) ||| u.ch4EnvPeriod
  else if a = 0x22 then
    (u.ch4ClockShift <<< 4) ||| (b2n u.ch4Width <<< 3) ||| u.ch4Divisor
  else if a = 0x23 then 0xBF ||| (b2n u.ch4LengthEn <<< 6)
  else if a = 0x24 then (u.volLeft <<< 4) ||| u.volRight
  else if a = 0x25 then
    (b2n (u.panLeft 3) <<< 7) ||| (b2n (u.panLeft 2) <<< 6) |||
    (b2n (u.panLeft 1) <<< 5) ||| (b2n (u.panLeft 0) <<< 4) |||
    (b2n (u.panRight 3) <<< 3) ||| (b2n (u.panRight 2) <<< 2) |||
    (b2n (u.panRight 1) <<< 1) ||| b2n (u.panRight 0)
  else if a = 0x26 then
    0x70 ||| (b2n u.masterEnable <<< 7) |||
    (b2n u.ch4Enabled <<< 3) ||| (b2n u.ch3Enabled <<< 2) |||
    (b2n u.ch2Enabled <<< 1) ||| b2n u.ch1Enabled
  else if 0x30 ≤ a ∧ a ≤ 0x3F then
    (u.ch3Wave ((a - 0x30) * 2) <<< 4) ||| u.ch3Wave ((a - 0x30) * 2 + 1)
  else 0xFF

/-- APU register write (`APU.write` in `apu.pyx`). -/
def apuWrite (u : ApuR) (addr value : Nat) : ApuR :=
  let a := addr &&& 0x3F
  if u.masterEnable = false ∧ a ≠ 0x26 ∧ ¬ (0x30 ≤ a ∧ a ≤ 0x3F) then u
  else if a = 0x10 then
    { u with ch1SweepPeriod := (value >>> 4) &&& 7,
             ch1SweepNeg := value &&& 8 ≠ 0,
             ch1SweepShift := value &&& 7 }
  else if a = 0x11 then
    { u with ch1Duty := (value >>> 6) &&& 3, ch1Length := 64 - (value &&& 0x3F) }
  else if a = 0x12 then
    let dac := value &&& 0xF8 ≠ 0
    { u with ch1VolInit := (value >>> 4) &&& 0xF,
             ch1EnvAdd := value &&& 8 ≠ 0,
             ch1EnvPeriod := value &&& 7,
             ch1Dac := dac,
             ch1Enabled := if dac then u.ch1Enabled else false }
  else if a = 0x13 then
    { u with ch1Freq := (u.ch1Freq &&& 0x700) ||| value }
  else if a = 0x14 then
    let u := { u with ch1Freq := (u.ch1Freq &&& 0xFF) ||| ((value &&& 7) <<< 8),
                      ch1LengthEn := value &&& 0x40 ≠ 0 }
    if value &&& 0x80 ≠ 0 then
      { u with ch1Enabled := u.ch1Dac,
               ch1Vol := u.ch1VolInit,
               ch1Length := if u.ch1Length = 0 then 64 else u.ch1Length }
    else u
  else if a = 0x16 then
    { u with ch2Duty := (value >>> 6) &&& 3, ch2Length := 64 - (value &&& 0x3F) }
  else if a = 0x17 then
    let dac := value &&& 0xF8 ≠ 0
    { u with ch2VolInit := (value >>> 4) &&& 0xF,
             ch2EnvAdd := value &&& 8 ≠ 0,
             ch2EnvPeriod := value &&& 7,
             ch2Dac := dac,
             ch2Enabled := if dac then u.ch2Enabled else false }
  else if a = 0x18 then
    { u with ch2Freq := (u.ch2Freq &&& 0x700) ||| value }
  else if a = 0x19 then
    let u := { u with ch2Freq := (u.ch2Freq &&& 0xFF) ||| ((value &&& 7) <<< 8),
                      ch2LengthEn := value &&& 0x40 ≠ 0 }
    if value &&& 0x80 ≠ 0 then
      { u with ch2Enabled := u.ch2Dac,
               ch2Vol := u.ch2VolInit,
               ch2Length := if u.ch2Length = 0 then 64 else u.ch2Length }
    else u
  else if a = 0x1A then
    let dac := value &&& 0x80 ≠ 0
    { u with ch3Dac := dac, ch3Enabled := if dac then u.ch3Enabled else false }
  else if a = 0x1B then
    { u with ch3Length := 256 - value }
  else if a = 0x1C then
    { u with ch3VolCode := (value >>> 5) &&& 3 }
  else if a = 0x1D then
    { u with ch3Freq := (u.ch3Freq &&& 0x700) ||| value }
  else if a = 0x1E then
    let u := { u with ch3Freq := (u.ch3Freq &&& 0xFF) ||| ((value &&& 7) <<< 8),
                      ch3LengthEn := value &&& 0x40 ≠ 0 }
    if value &&& 0x80 ≠ 0 then
      { u with ch3Enabled := u.ch3Dac,
               ch3Length := if u.ch3Length = 0 then 256 else u.ch3Length }
    else u
  else if a = 0x20 then
    { u with ch4Length := 64 - (value &&& 0x3F) }
  else if a = 0x21 then
    let dac := value &&& 0xF8 ≠ 0
    { u with ch4VolInit := (value >>> 4) &&& 0xF,
             ch4EnvAdd := value &&& 8 ≠ 0,
             ch4EnvPeriod := value &&& 7,
             ch4Dac := dac,
             ch4Enabled := if dac then u.ch4Enabled else false }
  else if a = 0x22 then
    { u with ch4ClockShift := (value >>> 4) &&& 0xF,
             ch4Width := value &&& 8 ≠ 0,
             ch4Divisor := value &&& 7 }
  else if a = 0x23 then
    let u := { u with ch4LengthEn := value &&& 0x40 ≠ 0 }
    if value &&& 0x80 ≠ 0 then
      { u with ch4Enabled := u.ch4Dac,
               ch4Vol := u.ch4VolInit,
               ch4Lfsr := 0x7FFF,
               ch4Length := if u.ch4Length = 0 then 64 else u.ch4Length }
    else u
  else if a = 0x24 then
    { u with volLeft := (value >>> 4) &&& 7, volRight := value &&& 7 }
  else if a = 0x25 then
    { u with panLeft := fun i =>
               if i = 3 then value &&& 0x80 ≠ 0
               else if i = 2 then value &&& 0x40 ≠ 0
               else if i = 1 then value &&& 0x20 ≠ 0
               else if i = 0 then value &&& 0x10 ≠ 0
               else u.panLeft i,
             panRight := fun i =>
               if i = 3 then value &&& 0x08 ≠ 0
               else if i = 2 then value &&& 0x04 ≠ 0
               else if i = 1 then value &&& 0x02 ≠ 0
               else if i = 0 then value &&& 0x01 ≠ 0
               else u.panRight i }
  else if a = 0x26 then
    let u :=
      if u.masterEnable ∧ value &&& 0x80 = 0 then
        { u with ch1Enabled := false, ch2Enabled := false,
                 ch3Enabled := false, ch4Enabled := false }
      else u
    { u with masterEnable := value &&& 0x80 ≠ 0 }
  else if 0x30 ≤ a ∧ a ≤ 0x3F then
    let idx := (a - 0x30) * 2
    { u with ch3Wave := upd (upd u.ch3Wave idx ((value >>> 4) &&& 0xF)) (idx + 1) (value &&& 0xF) }
  else u

/-- Timer TIMA increment loop (`while self.tima_cycles >= freq` in
`Timer.step`).  The fuel is the initial `tima_cycles`, which bounds the
iteration count since every `freq` in the `FREQS` table is at least 16. -/
def timaLoop (freq : Nat) : Nat → Nat → Nat → Nat → Nat → (Nat × Nat × Nat)
  | 0, tc, tima, _, ifr => (tc, tima, ifr)
  | fuel + 1, tc, tima, tma, ifr =>
    if freq ≤ tc then
      let tc := tc - freq
      let tima := (tima + 1) &&& 0xFF
      if tima = 0 then timaLoop freq fuel tc tma tma (ifr ||| 0x04)
      else timaLoop freq fuel tc tima tma ifr
    else (tc, tima, ifr)

/-- Timer frequency table `FREQS` from `timer.pyx`. -/
def freqTable (sel : Nat) : Nat :=
  if sel = 0 then 1024 else if sel = 1 then 16 else if sel = 2 then 64 else 256

/-- Timer tick (`Timer.step` in `timer.pyx`): advance DIV, and TIMA when
enabled; on TIMA overflow reload TMA and raise IF bit 2 in the MMU. -/
def timerStep (t : TmrR) (mem : MemR) (cycles : Nat) : TmrR × MemR :=
  let t := { t with tdiv := (t.tdiv + cycles) &&& 0xFFFF }
  if t.tac &&& 0x04 ≠ 0 then
    let tc := t.timaCycles + cycles
    let freq := freqTable (t.tac &&& 0x03)
    let r := timaLoop freq tc tc (t.tima &&& 0xFF) (t.tma &&& 0xFF) (mem.ioRegs 0x0F &&& 0xFF)
    ({ t with timaCycles := r.1, tima := r.2.1 },
     { mem with ioRegs := upd mem.ioRegs 0x0F r.2.2 })
  else (t, mem)

/-- Raise bits of IF (`self.mmu.io[0x0F] |= bit` in the sources); the
bytearray element is an unsigned byte. -/
def setIF (mem : MemR) (bit : Nat) : MemR :=
  { mem with ioRegs := upd mem.ioRegs 0x0F ((mem.ioRegs 0x0F &&& 0xFF) ||| bit) }

/-- LY=LYC comparison (`PPU._check_lyc`). -/
def checkLyc (p : PpuR) (mem : MemR) : PpuR × MemR :=
  if p.ly = p.lyc then
    let p := { p with statR := p.statR ||| 0x04 }
    if p.statR &&& 0x40 ≠ 0 then (p, setIF mem 0x02) else (p, mem)
  else ({ p with statR := p.statR &&& 0xFB }, mem)

/-- Palette cache refresh (`PPU._update_palettes`). -/
def updatePalettes (p : PpuR) : PpuR :=
  let mk : Nat → (Nat → Nat) → (Nat → Nat) := fun r g =>
    upd (upd (upd (upd g 0 (r &&& 0x03)) 1 ((r >>> 2) &&& 0x03))
         2 ((r >>> 4) &&& 0x03)) 3 ((r >>> 6) &&& 0x03)
  { p with bgPal := mk p.bgp p.bgPal,
           objPal0 := mk p.obp0 p.objPal0,
           objPal1 := mk p.obp1 p.objPal1 }

/-- Tile-data address for one tile number (`tile_addr` computation shared
by `PPU._render_bg` and `PPU._render_window`); the signed mode uses C
`int` arithmetic, which can only produce values in `[0, 0x1FF0]` here. -/
def tileAddr (signedTiles : Bool) (tileNum : Nat) : Nat :=
  if signedTiles then
    if tileNum < 128 then 0x1000 + tileNum * 16
    else (((0x1000 : Int) + ((tileNum : Int) - 256) * 16)).toNat
  else tileNum * 16

/-- Background scanline pass (`PPU._render_bg`). -/
def renderBg (p : PpuR) (mem : MemR) (ly : Nat) : PpuR :=
  let tileMapBase := if p.lcdc &&& 0x08 ≠ 0 then 0x1C00 else 0x1800
  let signedTiles := p.lcdc &&& 0x10 = 0
  let y := (ly + p.scy) &&& 0xFF
  let tileRow := y >>> 3
  let pixelRow := y &&& 7
  (List.range 160).foldl (fun p screenX =>
    let x := (screenX + p.scx) &&& 0xFF
    let tileCol := x >>> 3
    let mapAddr := tileMapBase + tileRow * 32 + tileCol
    let tileNum := mem.vram mapAddr &&& 0xFF
    let lineAddr := tileAddr signedTiles tileNum + pixelRow * 2
    let lo := mem.vram lineAddr &&& 0xFF
    let hi := mem.vram (lineAddr + 1) &&& 0xFF
    let bit := 7 - (x &&& 7)
    let colorIdx := (((hi >>> bit) &&& 1) <<< 1) ||| ((lo >>> bit) &&& 1)
    { p with fb := updFb p.fb ly screenX (p.bgPal colorIdx),
             bgPriority := upd p.bgPriority screenX (if colorIdx ≠ 0 then 1 else 0) }) p

/-- Window scanline pass (`PPU._render_window`). -/
def renderWindow (p : PpuR) (mem : MemR) (ly : Nat) : PpuR :=
  let wx : Int := (p.wx : Int) - 7
  if 160 ≤ wx then p
  else
    let tileMapBase := if p.lcdc &&& 0x40 ≠ 0 then 0x1C00 else 0x1800
    let signedTiles := p.lcdc &&& 0x10 = 0
    let windowY := p.windowLine
    let tileRow := windowY >>> 3
    let pixelRow := windowY &&& 7
    let startX : Nat := if 0 ≤ wx then wx.toNat else 0
    let r := (List.range' startX (160 - startX)).foldl
      (fun (st : PpuR × Bool) (screenX : Nat) =>
        let p := st.1
        let winXi : Int := (screenX : Int) - wx
        if winXi < 0 then st
        else
          let winX := winXi.toNat
          let tileCol := winX >>> 3
          let mapAddr := tileMapBase + tileRow * 32 + tileCol
          let tileNum := mem.vram mapAddr &&& 0xFF
          let lineAddr := tileAddr signedTiles tileNum + pixelRow * 2
          let lo := mem.vram lineAddr &&& 0xFF
          let hi := mem.vram (lineAddr + 1) &&& 0xFF
          let bit := 7 - (winX &&& 7)
          let colorIdx := (((hi >>> bit) &&& 1) <<< 1) ||| ((lo >>> bit) &&& 1)
          ({ p with fb := updFb p.fb ly screenX (p.bgPal colorIdx),
                    bgPriority := upd p.bgPriority screenX (if colorIdx ≠ 0 then 1 else 0) },
           true)) (p, false)
    if r.2 then { r.1 with windowLine := r.1.windowLine + 1 } else r.1

/-- One pass of the sprite bubble sort in `PPU._render_sprites`, holding
the entry currently at position `j`: entries are swapped when
`sprite_x[j] < sprite_x[j+1]`, i.e. the sort is by X descending, stable
on ties. -/
def bubbleCarry (a : Int × Nat) : List (Int × Nat) → List (Int × Nat)
  | [] => [a]
  | b :: rest => if a.1 < b.1 then b :: bubbleCarry a rest else a :: bubbleCarry b rest

/-- One full adjacent-swap pass over the sprite list. -/
def bubbleOnce : List (Int × Nat) → List (Int × Nat)
  | [] => []
  | a :: rest => bubbleCarry a rest

/-- The double bubble-sort loop of `PPU._render_sprites`: `n` full passes
subsume the source's triangular loop because passes over the already
sorted suffix perform no swaps. -/
def bubbleDesc (l : List (Int × Nat)) : List (Int × Nat) :=
  (List.range l.length).foldl (fun acc _ => bubbleOnce acc) l

/-- OAM scan of `PPU._render_sprites`: collect up to 10 sprites covering
scanline `ly`, in OAM order, as pairs `(screen x, OAM byte offset)`. -/
def selectSprites (mem : MemR) (ly : Nat) (height : Nat) : List (Int × Nat) :=
  (List.range 40).foldl (fun acc i =>
    if 10 ≤ acc.length then acc
    else
      let base := i * 4
      let y : Int := ((mem.oam base &&& 0xFF : Nat) : Int) - 16
      if y ≤ (ly : Int) ∧ (ly : Int) < y + (height : Int) then
        acc ++ [(((mem.oam (base + 1) &&& 0xFF : Nat) : Int) - 8, base)]
      else acc) []

/-- Draw one selected sprite (body of the render loop in
`PPU._render_sprites`). -/
def drawSprite (mem : MemR) (ly height : Nat) (p : PpuR) (s : Int × Nat) : PpuR :=
  let x := s.1
  let base := s.2
  let y : Int := ((mem.oam base &&& 0xFF : Nat) : Int) - 16
  let tileNum0 := mem.oam (base + 2) &&& 0xFF
  let attrs := mem.oam (base + 3) &&& 0xFF
  let bgOverObj := attrs &&& 0x80 ≠ 0
  let yFlip := attrs &&& 0x40 ≠ 0
  let xFlip := attrs &&& 0x20 ≠ 0
  let usePal1 := attrs &&& 0x10 ≠ 0
  let tileNum := if height = 16 then tileNum0 &&& 0xFE else tileNum0
  let spriteLine0 : Int := (ly : Int) - y
  let spriteLine : Int := if yFlip then (height : Int) - 1 - spriteLine0 else spriteLine0
  let tAddr := tileNum * 16 + (spriteLine.toNat) * 2
  let lo := mem.vram tAddr &&& 0xFF
  let hi := mem.vram (tAddr + 1) &&& 0xFF
  (List.range 8).foldl (fun (p : PpuR) (pixel : Nat) =>
    let screenXi : Int := x + (pixel : Int)
    if 0 ≤ screenXi ∧ screenXi < 160 then
      let screenX := screenXi.toNat
      let bit := if xFlip then pixel else 7 - pixel
      let colorIdx := (((hi >>> bit) &&& 1) <<< 1) ||| ((lo >>> bit) &&& 1)
      if colorIdx = 0 then p
      else if bgOverObj ∧ p.bgPriority screenX ≠ 0 then p
      else
        let pal := if usePal1 then p.objPal1 else p.objPal0
        { p with fb := updFb p.fb ly screenX (pal colorIdx) }
    else p) p

/-- Sprite scanline pass (`PPU._render_sprites`). -/
def renderSprites (p : PpuR) (mem : MemR) (ly : Nat) : PpuR :=
  let height := if p.lcdc &&& 0x04 ≠ 0 then 16 else 8
  let sel := selectSprites mem ly height
  if sel.length = 0 then p
  else (bubbleDesc sel).foldl (drawSprite mem ly height) p

/-- Whole-scanline renderer (`PPU._render_scanline`). -/
def renderScanline (p : PpuR) (mem : MemR) : PpuR :=
  let ly := p.ly
  if 144 ≤ ly then p
  else
    let p := updatePalettes p
    let p := { p with bgPriority :=
                 (List.range 160).foldl (fun g i => upd g i 0) p.bgPriority }
    let p :=
      if p.lcdc &&& 0x01 ≠ 0 then renderBg p mem ly
      else { p with fb := (List.range 160).foldl (fun g i => updFb g ly i 0) p.fb }
    let p :=
      if p.lcdc &&& 0x20 ≠ 0 ∧ p.wy ≤ ly then renderWindow p mem ly else p
    if p.lcdc &&& 0x02 ≠ 0 then renderSprites p mem ly else p

/-- PPU mode state machine (`PPU.step`): a no-op while LCDC bit 7 is
clear, otherwise advance the cycle accumulator and make at most one mode
transition. -/
def ppuStep (p : PpuR) (mem : MemR) (cycles : Nat) : PpuR × MemR :=
  if p.lcdc &&& 0x80 = 0 then (p, mem)
  else
    let p := { p with pcycles := p.pcycles + cycles }
    if p.mode = 2 then
      if 80 ≤ p.pcycles then ({ p with pcycles := p.pcycles - 80, mode := 3 }, mem)
      else (p, mem)
    else if p.mode = 3 then
      if 172 ≤ p.pcycles then
        let p := { p with pcycles := p.pcycles - 172, mode := 0 }
        let p := renderScanline p mem
        if p.statR &&& 0x08 ≠ 0 then (p, setIF mem 0x02) else (p, mem)
      else (p, mem)
    else if p.mode = 0 then
      if 204 ≤ p.pcycles then
        let p := { p with pcycles := p.pcycles - 204, ly := p.ly + 1 }
        let r :=
          if p.ly = 144 then
            let p := { p with mode := 1, frameReady := true }
            let mem := setIF mem 0x01
            if p.statR &&& 0x10 ≠ 0 then (p, setIF mem 0x02) else (p, mem)
          else
            let p := { p with mode := 2 }
            if p.statR &&& 0x20 ≠ 0 then (p, setIF mem 0x02) else (p, mem)
        checkLyc r.1 r.2
      else (p, mem)
    else
      if 456 ≤ p.pcycles then
        let p := { p with pcycles := p.pcycles - 456, ly := p.ly + 1 }
        let r :=
          if 154 ≤ p.ly then
            let p := { p with ly := 0, windowLine := 0, mode := 2 }
            if p.statR &&& 0x20 ≠ 0 then (p, setIF mem 0x02) else (p, mem)
          else (p, mem)
        checkLyc r.1 r.2
      else (p, mem)

/-- I/O register read (`MMU._read_io`).  The joypad object is not wired
(`joypad is None` branch). -/
def readIo (m : Mach) (addr : Nat) : Nat :=
  let reg := addr &&& 0x7F
  if reg = 0x00 then 0xFF
  else if reg = 0x04 then (m.tmr.tdiv >>> 8) &&& 0xFF
  else if reg = 0x05 then m.tmr.tima
  else if 0x10 ≤ reg ∧ reg ≤ 0x3F then apuRead m.apu reg
  else if reg = 0x41 then
    ((((m.ppu.statR &&& 0xFC) ||| m.ppu.mode) &&& 0xFC) ||| m.ppu.mode)
  else if reg = 0x44 then m.ppu.ly
  else m.mem.ioRegs reg

/-- Memory read (`MMU.read`); the result is truncated to a byte by the
`uint8_t` return type.  No cartridge is loaded, so the `mbc is None`
branches return `0xFF`. -/
def mmuRead (m : Mach) (addr0 : Nat) : Nat :=
  let addr := addr0 &&& 0xFFFF
  (if addr < 0x8000 then 0xFF
   else if addr < 0xA000 then m.mem.vram (addr - 0x8000)
   else if addr < 0xC000 then 0xFF
   else if addr < 0xE000 then m.mem.wram (addr - 0xC000)
   else if addr < 0xFE00 then m.mem.wram (addr - 0xE000)
   else if addr < 0xFEA0 then m.mem.oam (addr - 0xFE00)
   else if addr < 0xFF00 then 0xFF
   else if addr < 0xFF80 then readIo m addr
   else if addr < 0xFFFF then m.mem.hram (addr - 0xFF80)
   else m.mem.ie) &&& 0xFF

/-- OAM DMA burst (`MMU._dma`): 160 live reads into OAM. -/
def dmaTransfer (m : Mach) (value : Nat) : Mach :=
  let src := value <<< 8
  (List.range 0xA0).foldl (fun (m : Mach) (i : Nat) =>
    { m with mem := { m.mem with oam := upd m.mem.oam i (mmuRead m (src + i)) } }) m

/-- Component fan-out of `MMU._write_io` (the `elif` chain short of the
DIV branch and the final `io` store). -/
def writeIoComp (m : Mach) (reg value : Nat) : Mach :=
  if reg = 0x00 then m
  else if reg = 0x05 then { m with tmr := { m.tmr with tima := value } }
  else if reg = 0x06 then { m with tmr := { m.tmr with tma := value } }
  else if reg = 0x07 then { m with tmr := { m.tmr with tac := value } }
  else if 0x10 ≤ reg ∧ reg ≤ 0x3F then { m with apu := apuWrite m.apu reg value }
  else if reg = 0x40 then { m with ppu := { m.ppu with lcdc := value } }
  else if reg = 0x41 then
    { m with ppu := { m.ppu with statR :=
        (((m.ppu.statR &&& 0xFC) ||| m.ppu.mode) &&& 0x07) ||| (value &&& 0xF8) } }
  else if reg = 0x42 then { m with ppu := { m.ppu with scy := value } }
  else if reg = 0x43 then { m with ppu := { m.ppu with scx := value } }
  else if reg = 0x45 then { m with ppu := { m.ppu with lyc := value } }
  else if reg = 0x46 then dmaTransfer m value
  else if reg = 0x47 then { m with ppu := { m.ppu with bgp := value } }
  else if reg = 0x48 then { m with ppu := { m.ppu with obp0 := value } }
  else if reg = 0x49 then { m with ppu := { m.ppu with obp1 := value } }
  else if reg = 0x4A then { m with ppu := { m.ppu with wy := value } }
  else if reg = 0x4B then { m with ppu := { m.ppu with wx := value } }
  else m

/-- I/O register write (`MMU._write_io`): the DIV branch stores 0 and
returns early; every other register runs the component fan-out and then
updates the `io` byte. -/
def writeIo (m : Mach) (addr value : Nat) : Mach :=
  let reg := addr &&& 0x7F
  if reg = 0x04 then
    { m with tmr := { m.tmr with tdiv := 0 },
             mem := { m.mem with ioRegs := upd m.mem.ioRegs 0x04 0 } }
  else
    let m := writeIoComp m reg value
    { m with mem := { m.mem with ioRegs := upd m.mem.ioRegs reg value } }

/-- Memory write (`MMU.write`); address and value are truncated as in the
source.  `mbc is None`, so control and cartridge-RAM writes are dropped. -/
def mmuWrite (m : Mach) (addr0 value0 : Nat) : Mach :=
  let addr := addr0 &&& 0xFFFF
  let value := value0 &&& 0xFF
  if addr < 0x8000 then m
  else if addr < 0xA000 then
    { m with mem := { m.mem with vram := upd m.mem.vram (addr - 0x8000) value } }
  else if addr < 0xC000 then m
  else if addr < 0xE000 then
    { m with mem := { m.mem with wram := upd m.mem.wram (addr - 0xC000) value } }
  else if addr < 0xFE00 then
    { m with mem := { m.mem with wram := upd m.mem.wram (addr - 0xE000) value } }
  else if addr < 0xFEA0 then
    { m with mem := { m.mem with oam := upd m.mem.oam (addr - 0xFE00) value } }
  else if addr < 0xFF00 then m
  else if addr < 0xFF80 then writeIo m addr value
  else if addr < 0xFFFF then
    { m with mem := { m.mem with hram := upd m.mem.hram (addr - 0xFF80) value } }
  else { m with mem := { m.mem with ie := value } }

/-- Clock hook (`CPU._tick`): advance the cycle counter, then Timer and
PPU, by `4 * mCycles` T-cycles. -/
def tick (m : Mach) (mCycles : Nat) : Mach :=
  let t := mCycles <<< 2
  let m := { m with cpu := { m.cpu with cycles := m.cpu.cycles + t } }
  let tr := timerStep m.tmr m.mem t
  let m := { m with tmr := tr.1, mem := tr.2 }
  let pr := ppuStep m.ppu m.mem t
  { m with ppu := pr.1, mem := pr.2 }

/-- Opcode/operand fetch (`CPU._fetch`): read at PC, increment PC, tick. -/
def cpuFetch (m : Mach) : Nat × Mach :=
  let pc := m.cpu.pc
  let v := mmuRead m pc
  let m := { m with cpu := { m.cpu with pc := (pc + 1) &&& 0xFFFF } }
  (v, tick m 1)

/-- 16-bit fetch (`CPU._fetch_word`), low byte first. -/
def cpuFetchWord (m : Mach) : Nat × Mach :=
  let r1 := cpuFetch m
  let r2 := cpuFetch r1.2
  ((r2.1 <<< 8) ||| r1.1, r2.2)

/-- Data read (`CPU._read`): tick, then read. -/
def cpuRead (m : Mach) (addr : Nat) : Nat × Mach :=
  let m := tick m 1
  (mmuRead m addr, m)

/-- Data write (`CPU._write`): tick, then write. -/
def cpuWrite (m : Mach) (addr v : Nat) : Mach :=
  mmuWrite (tick m 1) addr v

/-- Stack push (`CPU._push_word`), high byte first. -/
def pushWord (m : Mach) (value : Nat) : Mach :=
  let m := { m with cpu := { m.cpu with sp := m16i ((m.cpu.sp : Int) - 1) } }
  let m := cpuWrite m m.cpu.sp ((value >>> 8) &&& 0xFF)
  let m := { m with cpu := { m.cpu with sp := m16i ((m.cpu.sp : Int) - 1) } }
  cpuWrite m m.cpu.sp (value &&& 0xFF)

/-- Stack pop (`CPU._pop_word`), low byte first. -/
def popWord (m : Mach) : Nat × Mach :=
  let r1 := cpuRead m m.cpu.sp
  let m := { r1.2 with cpu := { r1.2.cpu with sp := (r1.2.cpu.sp + 1) &&& 0xFFFF } }
  let r2 := cpuRead m m.cpu.sp
  let m := { r2.2 with cpu := { r2.2.cpu with sp := (r2.2.cpu.sp + 1) &&& 0xFFFF } }
  ((r2.1 <<< 8) ||| r1.1, m)

/-- Register-file read (`CPU._get_reg`); index 6 is a ticking `(HL)`
read, and the `uint8_t` return type truncates. -/
def getReg (m : Mach) (r : Nat) : Nat × Mach :=
  if r = 0 then (m.cpu.b &&& 0xFF, m)
  else if r = 1 then (m.cpu.c &&& 0xFF, m)
  else if r = 2 then (m.cpu.d &&& 0xFF, m)
  else if r = 3 then (m.cpu.e &&& 0xFF, m)
  else if r = 4 then (m.cpu.h &&& 0xFF, m)
  else if r = 5 then (m.cpu.l &&& 0xFF, m)
  else if r = 6 then cpuRead m ((m.cpu.h <<< 8) ||| m.cpu.l)
  else (m.cpu.a &&& 0xFF, m)

/-- Register-file write (`CPU._set_reg`); index 6 is a ticking `(HL)`
write. -/
def setReg (m : Mach) (r v : Nat) : Mach :=
  if r = 0 then { m with cpu := { m.cpu with b := v &&& 0xFF } }
  else if r = 1 then { m with cpu := { m.cpu with c := v &&& 0xFF } }
  else if r = 2 then { m with cpu := { m.cpu with d := v &&& 0xFF } }
  else if r = 3 then { m with cpu := { m.cpu with e := v &&& 0xFF } }
  else if r = 4 then { m with cpu := { m.cpu with h := v &&& 0xFF } }
  else if r = 5 then { m with cpu := { m.cpu with l := v &&& 0xFF } }
  else if r = 6 then cpuWrite m ((m.cpu.h <<< 8) ||| m.cpu.l) v
  else { m with cpu := { m.cpu with a := v &&& 0xFF } }

/-- Flags of the 8-bit INC pattern repeated through `CPU._execute`:
`(f & 0x10) | (0x80 if r == 0) | (0x20 if (v & 0xF) == 0xF)`. -/
def incFlags (f v r : Nat) : Nat :=
  (f &&& 0x10) ||| (if r = 0 then 0x80 else 0) |||
    (if v &&& 0xF = 0xF then 0x20 else 0)

/-- Flags of the 8-bit DEC pattern repeated through `CPU._execute`:
`(f & 0x10) | 0x40 | (0x80 if r == 0) | (0x20 if (v & 0xF) == 0)`. -/
def decFlags (f v r : Nat) : Nat :=
  (f &&& 0x10) ||| 0x40 ||| (if r = 0 then 0x80 else 0) |||
    (if v &&& 0xF = 0 then 0x20 else 0)

/-- 8-bit increment with flags (`r = (v + 1) & 0xFF` and the INC flag
pattern); returns `(r, f)`. -/
def inc8 (v f : Nat) : Nat × Nat :=
  let r := (v + 1) &&& 0xFF
  (r, incFlags f v r)

/-- 8-bit decrement with flags (`r = (v - 1) & 0xFF` on the promoted C
int, and the DEC flag pattern); returns `(r, f)`. -/
def dec8 (v f : Nat) : Nat × Nat :=
  let r := m8i ((v &&& 0xFF : Nat) - (1 : Int))
  (r, decFlags f v r)

/-- ADD flag pattern of `CPU._alu` and the `ADD A,n` branch of
`CPU._execute_cx_fx`. -/
def addFlags (a v r : Nat) : Nat :=
  (if r &&& 0xFF = 0 then 0x80 else 0) |||
    (if 0xF < (a &&& 0xF) + (v &&& 0xF) then 0x20 else 0) |||
    (if 0xFF < r then 0x10 else 0)

/-- ADC flag pattern (carry-in variant). -/
def adcFlags (a v cin r : Nat) : Nat :=
  (if r &&& 0xFF = 0 then 0x80 else 0) |||
    (if 0xF < (a &&& 0xF) + (v &&& 0xF) + cin then 0x20 else 0) |||
    (if 0xFF < r then 0x10 else 0)

/-- SUB/CP flag pattern over the signed C int result. -/
def subFlags (a v : Nat) (r : Int) : Nat :=
  0x40 ||| (if r % 256 = 0 then 0x80 else 0) |||
    (if a &&& 0xF < v &&& 0xF then 0x20 else 0) |||
    (if r < 0 then 0x10 else 0)

/-- SBC flag pattern (borrow-in variant). -/
def sbcFlags (a v cin : Nat) (r : Int) : Nat :=
  0x40 ||| (if r % 256 = 0 then 0x80 else 0) |||
    (if a &&& 0xF < (v &&& 0xF) + cin then 0x20 else 0) |||
    (if r < 0 then 0x10 else 0)

/-- Flag pattern of `ADD SP,n` and `LD HL,SP+n`: half-carry and carry of
the unsigned low-byte addition. -/
def spnFlags (sp n : Nat) : Nat :=
  (if 0xF < (sp &&& 0xF) + (n &&& 0xF) then 0x20 else 0) |||
    (if 0xFF < (sp &&& 0xFF) + n then 0x10 else 0)

/-- Decode the signed JR/ADD SP displacement (`<int8_t>(n - 256)` when
`n > 127`). -/
def sgn8 (n : Nat) : Int := if 127 < n then (n : Int) - 256 else (n : Int)

/-- BCD adjust (`CPU._daa`); takes A and F, returns the new `(a, f)`. -/
def daaFun (a0 f : Nat) : Nat × Nat :=
  let correction0 : Nat :=
    if f &&& 0x20 ≠ 0 ∨ (f &&& 0x40 = 0 ∧ 9 < a0 &&& 0xF) then 0x06 else 0
  let setCarry := f &&& 0x10 ≠ 0 ∨ (f &&& 0x40 = 0 ∧ 0x99 < a0)
  let correction := if setCarry then correction0 ||| 0x60 else correction0
  let a : Nat :=
    if f &&& 0x40 ≠ 0 then m8i ((a0 : Int) - correction)
    else (a0 + correction) &&& 0xFF
  (a, (f &&& 0x40) ||| (if a = 0 then 0x80 else 0) |||
      (if setCarry then 0x10 else 0))

/-- HALT semantics (`CPU._halt`): with IME set, halt; with IME clear and
a pending enabled interrupt, set the `halt_bug` flag; otherwise halt. -/
def haltFun (m : Mach) : Mach :=
  let ie := m.mem.ie &&& 0xFF
  let ifr := m.mem.ioRegs 0x0F &&& 0xFF
  let pending := ie &&& ifr &&& 0x1F
  if m.cpu.ime then { m with cpu := { m.cpu with halted := true } }
  else if pending ≠ 0 then { m with cpu := { m.cpu with haltBug := true } }
  else { m with cpu := { m.cpu with halted := true } }

/-- `LD r,r'` family (`CPU._ld_r_r`). -/
def ldRR (m : Mach) (op : Nat) : Mach :=
  let src := op &&& 0x07
  let dst := (op >>> 3) &&& 0x07
  let rv := getReg m src
  setReg rv.2 dst rv.1

/-- ALU family 0x80–0xBF (`CPU._alu`). -/
def aluFun (m : Mach) (op : Nat) : Mach :=
  let src := op &&& 0x07
  let aluOp := (op >>> 3) &&& 0x07
  let rv := getReg m src
  let v := rv.1
  let m := rv.2
  let a := m.cpu.a &&& 0xFF
  if aluOp = 0 then
    let r := a + v
    { m with cpu := { m.cpu with f := addFlags a v r, a := r &&& 0xFF } }
  else if aluOp = 1 then
    let cin := (m.cpu.f >>> 4) &&& 1
    let r := a + v + cin
    { m with cpu := { m.cpu with f := adcFlags a v cin r, a := r &&& 0xFF } }
  else if aluOp = 2 then
    let r : Int := (a : Int) - v
    { m with cpu := { m.cpu with f := subFlags a v r, a := m8i r } }
  else if aluOp = 3 then
    let cin := (m.cpu.f >>> 4) &&& 1
    let r : Int := (a : Int) - v - cin
    { m with cpu := { m.cpu with f := sbcFlags a v cin r, a := m8i r } }
  else if aluOp = 4 then
    let a2 := a &&& v
    { m with cpu := { m.cpu with a := a2, f := 0x20 ||| (if a2 = 0 then 0x80 else 0) } }
  else if aluOp = 5 then
    let a2 := a ^^^ v
    { m with cpu := { m.cpu with a := a2, f := if a2 = 0 then 0x80 else 0 } }
  else if aluOp = 6 then
    let a2 := a ||| v
    { m with cpu := { m.cpu with a := a2, f := if a2 = 0 then 0x80 else 0 } }
  else
    let r : Int := (a : Int) - v
    { m with cpu := { m.cpu with f := subFlags a v r } }

/-- Write-back step of `CPU._cb`: `(HL)` via a ticking write, registers
via `_set_reg`. -/
def cbWriteBack (m : Mach) (reg hl v : Nat) : Mach :=
  if reg = 6 then cpuWrite m hl v else setReg m reg v

/-- CB-prefixed decode and execute (`CPU._cb`). -/
def cbFun (m : Mach) : Mach :=
  let rf := cpuFetch m
  let op := rf.1
  let m := rf.2
  let reg := op &&& 0x07
  let cbOp := op >>> 3
  let hl := (m.cpu.h <<< 8) ||| m.cpu.l
  let rv := if reg = 6 then cpuRead m hl else getReg m reg
  let v := rv.1
  let m := rv.2
  if cbOp < 8 then
    let vf : Nat × Nat :=
      if cbOp = 0 then
        let c := v >>> 7
        let v := ((v <<< 1) ||| c) &&& 0xFF
        (v, (c <<< 4) ||| (if v = 0 then 0x80 else 0))
      else if cbOp = 1 then
        let c := v &&& 1
        let v := (v >>> 1) ||| (c <<< 7)
        (v, (c <<< 4) ||| (if v = 0 then 0x80 else 0))
      else if cbOp = 2 then
        let c := v >>> 7
        let v := ((v <<< 1) ||| ((m.cpu.f >>> 4) &&& 1)) &&& 0xFF
        (v, (c <<< 4) ||| (if v = 0 then 0x80 else 0))
      else if cbOp = 3 then
        let c := v &&& 1
        let v := (v >>> 1) ||| ((m.cpu.f <<< 3) &&& 0x80)
        (v, (c <<< 4) ||| (if v = 0 then 0x80 else 0))
      else if cbOp = 4 then
        let c := v >>> 7
        let v := (v <<< 1) &&& 0xFF
        (v, (c <<< 4) ||| (if v = 0 then 0x80 else 0))
      else if cbOp = 5 then
        let c := v &&& 1
        let v2 := (v >>> 1) ||| (v &&& 0x80)
        (v2, (c <<< 4) ||| (if v2 = 0 then 0x80 else 0))
      else if cbOp = 6 then
        let v := ((v &&& 0xF) <<< 4) ||| (v >>> 4)
        (v, if v = 0 then 0x80 else 0)
      else
        let c := v &&& 1
        let v := v >>> 1
        (v, (c <<< 4) ||| (if v = 0 then 0x80 else 0))
    let m := { m with cpu := { m.cpu with f := vf.2 } }
    cbWriteBack m reg hl vf.1
  else if cbOp < 16 then
    let bit := cbOp - 8
    { m with cpu := { m.cpu with f :=
        (m.cpu.f &&& 0x10) ||| 0x20 |||
          (if v &&& (1 <<< bit) = 0 then 0x80 else 0) } }
  else if cbOp < 24 then
    let bit := cbOp - 16
    cbWriteBack m reg hl (v &&& (0xFF ^^^ (1 <<< bit)))
  else
    let bit := cbOp - 24
    cbWriteBack m reg hl ((v ||| (1 <<< bit)) &&& 0xFF)

/-- Push-and-jump tail of the RST opcodes and taken CALLs. -/
def callTo (m : Mach) (target : Nat) : Mach :=
  let m := tick m 1
  let m := pushWord m m.cpu.pc
  { m with cpu := { m.cpu with pc := target &&& 0xFFFF } }

/-- Conditional-RET body (`RET cc`): leading tick, then pop and tick when
the flag condition (evaluated after the tick, as in the source) holds. -/
def retIf (m : Mach) (cond : Mach → Bool) : Mach :=
  let m := tick m 1
  if cond m then
    let rp := popWord m
    tick { rp.2 with cpu := { rp.2.cpu with pc := rp.1 } } 1
  else m

/-- Conditional-JP body (`JP cc,nn`): fetch the target, then jump and
tick when the flag condition (evaluated after the fetch) holds. -/
def jpIf (m : Mach) (cond : Mach → Bool) : Mach :=
  let ra := cpuFetchWord m
  let m := ra.2
  if cond m then tick { m with cpu := { m.cpu with pc := ra.1 } } 1 else m

/-- Conditional-CALL body (`CALL cc,nn`). -/
def callIf (m : Mach) (cond : Mach → Bool) : Mach :=
  let ra := cpuFetchWord m
  let m := ra.2
  if cond m then callTo m ra.1 else m

/-- Opcode rows 0xC0–0xFF (`CPU._execute_cx_fx`).  Opcode bytes with no
branch in the source chain — in particular the illegal opcodes 0xD3,
0xDB, 0xDD, 0xE3, 0xE4, 0xEB, 0xEC, 0xED, 0xF4, 0xFC, 0xFD — fall
through and leave the machine unchanged. -/
def executeCxFx (m : Mach) (op : Nat) : Mach :=
  if op = 0xC0 then retIf m (fun s => s.cpu.f &&& 0x80 == 0)
  else if op = 0xC1 then
    let rp := popWord m
    { rp.2 with cpu := { rp.2.cpu with b := rp.1 >>> 8, c := rp.1 &&& 0xFF } }
  else if op = 0xC2 then jpIf m (fun s => s.cpu.f &&& 0x80 == 0)
  else if op = 0xC3 then
    let ra := cpuFetchWord m
    tick { ra.2 with cpu := { ra.2.cpu with pc := ra.1 } } 1
  else if op = 0xC4 then callIf m (fun s => s.cpu.f &&& 0x80 == 0)
  else if op = 0xC5 then
    let m := tick m 1
    pushWord m (((m.cpu.b &&& 0xFF) <<< 8) ||| (m.cpu.c &&& 0xFF))
  else if op = 0xC6 then
    let rn := cpuFetch m
    let m := rn.2
    let a := m.cpu.a &&& 0xFF
    let r := a + rn.1
    { m with cpu := { m.cpu with f := addFlags a rn.1 r, a := r &&& 0xFF } }
  else if op = 0xC7 then callTo m 0x00
  else if op = 0xC8 then retIf m (fun s => s.cpu.f &&& 0x80 != 0)
  else if op = 0xC9 then
    let rp := popWord m
    tick { rp.2 with cpu := { rp.2.cpu with pc := rp.1 } } 1
  else if op = 0xCA then jpIf m (fun s => s.cpu.f &&& 0x80 != 0)
  else if op = 0xCB then cbFun m
  else if op = 0xCC then callIf m (fun s => s.cpu.f &&& 0x80 != 0)
  else if op = 0xCD then
    let ra := cpuFetchWord m
    callTo ra.2 ra.1
  else if op = 0xCE then
    let rn := cpuFetch m
    let m := rn.2
    let a := m.cpu.a &&& 0xFF
    let cin := (m.cpu.f >>> 4) &&& 1
    let r := a + rn.1 + cin
    { m with cpu := { m.cpu with f := adcFlags a rn.1 cin r, a := r &&& 0xFF } }
  else if op = 0xCF then callTo m 0x08
  else if op = 0xD0 then retIf m (fun s => s.cpu.f &&& 0x10 == 0)
  else if op = 0xD1 then
    let rp := popWord m
    { rp.2 with cpu := { rp.2.cpu with d := rp.1 >>> 8, e := rp.1 &&& 0xFF } }
  else if op = 0xD2 then jpIf m (fun s => s.cpu.f &&& 0x10 == 0)
  else if op = 0xD4 then callIf m (fun s => s.cpu.f &&& 0x10 == 0)
  else if op = 0xD5 then
    let m := tick m 1
    pushWord m (((m.cpu.d &&& 0xFF) <<< 8) ||| (m.cpu.e &&& 0xFF))
  else if op = 0xD6 then
    let rn := cpuFetch m
    let m := rn.2
    let a := m.cpu.a &&& 0xFF
    let r : Int := (a : Int) - rn.1
    { m with cpu := { m.cpu with f := subFlags a rn.1 r, a := m8i r } }
  else if op = 0xD7 then callTo m 0x10
  else if op = 0xD8 then retIf m (fun s => s.cpu.f &&& 0x10 != 0)
  else if op = 0xD9 then
    let rp := popWord m
    let m := tick { rp.2 with cpu := { rp.2.cpu with pc := rp.1 } } 1
    { m with cpu := { m.cpu with ime := true } }
  else if op = 0xDA then jpIf m (fun s => s.cpu.f &&& 0x10 != 0)
  else if op = 0xDC then callIf m (fun s => s.cpu.f &&& 0x10 != 0)
  else if op = 0xDE then
    let rn := cpuFetch m
    let m := rn.2
    let a := m.cpu.a &&& 0xFF
    let cin := (m.cpu.f >>> 4) &&& 1
    let r : Int := (a : Int) - rn.1 - cin
    { m with cpu := { m.cpu with f := sbcFlags a rn.1 cin r, a := m8i r } }
  else if op = 0xDF then callTo m 0x18
  else if op = 0xE0 then
    let rn := cpuFetch m
    cpuWrite rn.2 (0xFF00 + rn.1) (rn.2.cpu.a &&& 0xFF)
  else if op = 0xE1 then
    let rp := popWord m
    { rp.2 with cpu := { rp.2.cpu with h := rp.1 >>> 8, l := rp.1 &&& 0xFF } }
  else if op = 0xE2 then cpuWrite m (0xFF00 + (m.cpu.c &&& 0xFF)) (m.cpu.a &&& 0xFF)
  else if op = 0xE5 then
    let m := tick m 1
    pushWord m (((m.cpu.h &&& 0xFF) <<< 8) ||| (m.cpu.l &&& 0xFF))
  else if op = 0xE6 then
    let rn := cpuFetch m
    let m := rn.2
    let a2 := (m.cpu.a &&& 0xFF) &&& rn.1
    { m with cpu := { m.cpu with a := a2, f := 0x20 ||| (if a2 = 0 then 0x80 else 0) } }
  else if op = 0xE7 then callTo m 0x20
  else if op = 0xE8 then
    let rn := cpuFetch m
    let m := rn.2
    let f := spnFlags m.cpu.sp rn.1
    let sp := m16i ((m.cpu.sp : Int) + sgn8 rn.1)
    tick { m with cpu := { m.cpu with f := f, sp := sp } } 2
  else if op = 0xE9 then
    { m with cpu := { m.cpu with pc := ((m.cpu.h <<< 8) ||| (m.cpu.l &&& 0xFF)) &&& 0xFFFF } }
  else if op = 0xEA then
    let ra := cpuFetchWord m
    cpuWrite ra.2 ra.1 (ra.2.cpu.a &&& 0xFF)
  else if op = 0xEE then
    let rn := cpuFetch m
    let m := rn.2
    let a2 := ((m.cpu.a &&& 0xFF) ^^^ rn.1) &&& 0xFF
    { m with cpu := { m.cpu with a := a2, f := if a2 = 0 then 0x80 else 0 } }
  else if op = 0xEF then callTo m 0x28
  else if op = 0xF0 then
    let rn := cpuFetch m
    let rd := cpuRead rn.2 (0xFF00 + rn.1)
    { rd.2 with cpu := { rd.2.cpu with a := rd.1 } }
  else if op = 0xF1 then
    let rp := popWord m
    { rp.2 with cpu := { rp.2.cpu with a := rp.1 >>> 8, f := rp.1 &&& 0xF0 } }
  else if op = 0xF2 then
    let rd := cpuRead m (0xFF00 + (m.cpu.c &&& 0xFF))
    { rd.2 with cpu := { rd.2.cpu with a := rd.1 } }
  else if op = 0xF3 then
    { m with cpu := { m.cpu with ime := false, eiDelay := 0 } }
  else if op = 0xF5 then
    let m := tick m 1
    pushWord m (((m.cpu.a &&& 0xFF) <<< 8) ||| (m.cpu.f &&& 0xFF))
  else if op = 0xF6 then
    let rn := cpuFetch m
    let m := rn.2
    let a2 := ((m.cpu.a &&& 0xFF) ||| rn.1) &&& 0xFF
    { m with cpu := { m.cpu with a := a2, f := if a2 = 0 then 0x80 else 0 } }
  else if op = 0xF7 then callTo m 0x30
  else if op = 0xF8 then
    let rn := cpuFetch m
    let m := rn.2
    let f := spnFlags m.cpu.sp rn.1
    let addr := m16i ((m.cpu.sp : Int) + sgn8 rn.1)
    tick { m with cpu := { m.cpu with f := f, h := addr >>> 8, l := addr &&& 0xFF } } 1
  else if op = 0xF9 then
    tick { m with cpu := { m.cpu with
      sp := ((m.cpu.h <<< 8) ||| (m.cpu.l &&& 0xFF)) &&& 0xFFFF } } 1
  else if op = 0xFA then
    let ra := cpuFetchWord m
    let rd := cpuRead ra.2 ra.1
    { rd.2 with cpu := { rd.2.cpu with a := rd.1 } }
  else if op = 0xFB then
    { m with cpu := { m.cpu with eiDelay := 1 } }
  else if op = 0xFE then
    let rn := cpuFetch m
    let m := rn.2
    let a := m.cpu.a &&& 0xFF
    let r : Int := (a : Int) - rn.1
    { m with cpu := { m.cpu with f := subFlags a rn.1 r } }
  else if op = 0xFF then callTo m 0x38
  else m

/-- Taken relative jump (`JR` body): sign-extend, add to PC, tick. -/
def jrRel (m : Mach) (n : Nat) : Mach :=
  tick { m with cpu := { m.cpu with pc := m16i ((m.cpu.pc : Int) + sgn8 n) } } 1

/-- `ADD HL,rr` body shared by opcodes 0x09/0x19/0x39. -/
def addHLrr (m : Mach) (rr : Nat) : Mach :=
  let hl := ((m.cpu.h &&& 0xFF) <<< 8) ||| (m.cpu.l &&& 0xFF)
  let result := hl + rr
  let f := (m.cpu.f &&& 0x80) |||
    (if 0xFFF < (hl &&& 0xFFF) + (rr &&& 0xFFF) then 0x20 else 0) |||
    (if 0xFFFF < result then 0x10 else 0)
  tick { m with cpu :=
    { m.cpu with f := f, h := (result >>> 8) &&& 0xFF, l := result &&& 0xFF } } 1

/-- Primary opcode dispatch (`CPU._execute`). -/
def execute (m : Mach) (op : Nat) : Mach :=
  if op = 0x00 then m
  else if op = 0x01 then
    let r1 := cpuFetch m
    let m := { r1.2 with cpu := { r1.2.cpu with c := r1.1 } }
    let r2 := cpuFetch m
    { r2.2 with cpu := { r2.2.cpu with b := r2.1 } }
  else if op = 0x02 then
    cpuWrite m (((m.cpu.b &&& 0xFF) <<< 8) ||| (m.cpu.c &&& 0xFF)) (m.cpu.a &&& 0xFF)
  else if op = 0x03 then
    let bc := ((((m.cpu.b &&& 0xFF) <<< 8) ||| (m.cpu.c &&& 0xFF)) + 1) &&& 0xFFFF
    tick { m with cpu := { m.cpu with b := (bc >>> 8) &&& 0xFF, c := bc &&& 0xFF } } 1
  else if op = 0x04 then
    let r := inc8 (m.cpu.b &&& 0xFF) m.cpu.f
    { m with cpu := { m.cpu with f := r.2, b := r.1 } }
  else if op = 0x05 then
    let r := dec8 (m.cpu.b &&& 0xFF) m.cpu.f
    { m with cpu := { m.cpu with f := r.2, b := r.1 } }
  else if op = 0x06 then
    let r := cpuFetch m
    { r.2 with cpu := { r.2.cpu with b := r.1 } }
  else if op = 0x07 then
    let a := m.cpu.a &&& 0xFF
    let c := a >>> 7
    { m with cpu := { m.cpu with a := ((a <<< 1) ||| c) &&& 0xFF, f := c <<< 4 } }
  else if op = 0x08 then
    let ra := cpuFetchWord m
    let m := cpuWrite ra.2 ra.1 (ra.2.cpu.sp &&& 0xFF)
    cpuWrite m ((ra.1 + 1) &&& 0xFFFF) ((m.cpu.sp &&& 0xFFFF) >>> 8)
  else if op = 0x09 then
    addHLrr m (((m.cpu.b &&& 0xFF) <<< 8) ||| (m.cpu.c &&& 0xFF))
  else if op = 0x0A then
    let rd := cpuRead m (((m.cpu.b &&& 0xFF) <<< 8) ||| (m.cpu.c &&& 0xFF))
    { rd.2 with cpu := { rd.2.cpu with a := rd.1 } }
  else if op = 0x0B then
    let bc := m16i (((((m.cpu.b &&& 0xFF) <<< 8) ||| (m.cpu.c &&& 0xFF) : Nat) : Int) - 1)
    tick { m with cpu := { m.cpu with b := (bc >>> 8) &&& 0xFF, c := bc &&& 0xFF } } 1
  else if op = 0x0C then
    let r := inc8 (m.cpu.c &&& 0xFF) m.cpu.f
    { m with cpu := { m.cpu with f := r.2, c := r.1 } }
  else if op = 0x0D then
    let r := dec8 (m.cpu.c &&& 0xFF) m.cpu.f
    { m with cpu := { m.cpu with f := r.2, c := r.1 } }
  else if op = 0x0E then
    let r := cpuFetch m
    { r.2 with cpu := { r.2.cpu with c := r.1 } }
  else if op = 0x0F then
    let a := m.cpu.a &&& 0xFF
    let c := a &&& 1
    { m with cpu := { m.cpu with a := (a >>> 1) ||| (c <<< 7), f := c <<< 4 } }
  else if op = 0x10 then (cpuFetch m).2
  else if op = 0x11 then
    let r1 := cpuFetch m
    let m := { r1.2 with cpu := { r1.2.cpu with e := r1.1 } }
    let r2 := cpuFetch m
    { r2.2 with cpu := { r2.2.cpu with d := r2.1 } }
  else if op = 0x12 then
    cpuWrite m (((m.cpu.d &&& 0xFF) <<< 8) ||| (m.cpu.e &&& 0xFF)) (m.cpu.a &&& 0xFF)
  else if op = 0x13 then
    let de := ((((m.cpu.d &&& 0xFF) <<< 8) ||| (m.cpu.e &&& 0xFF)) + 1) &&& 0xFFFF
    tick { m with cpu := { m.cpu with d := (de >>> 8) &&& 0xFF, e := de &&& 0xFF } } 1
  else if op = 0x14 then
    let r := inc8 (m.cpu.d &&& 0xFF) m.cpu.f
    { m with cpu := { m.cpu with f := r.2, d := r.1 } }
  else if op = 0x15 then
    let r := dec8 (m.cpu.d &&& 0xFF) m.cpu.f
    { m with cpu := { m.cpu with f := r.2, d := r.1 } }
  else if op = 0x16 then
    let r := cpuFetch m
    { r.2 with cpu := { r.2.cpu with d := r.1 } }
  else if op = 0x17 then
    let a := m.cpu.a &&& 0xFF
    let c := a >>> 7
    { m with cpu := { m.cpu with
        a := ((a <<< 1) ||| ((m.cpu.f >>> 4) &&& 1)) &&& 0xFF, f := c <<< 4 } }
  else if op = 0x18 then
    let rn := cpuFetch m
    jrRel rn.2 rn.1
  else if op = 0x19 then
    addHLrr m (((m.cpu.d &&& 0xFF) <<< 8) ||| (m.cpu.e &&& 0xFF))
  else if op = 0x1A then
    let rd := cpuRead m (((m.cpu.d &&& 0xFF) <<< 8) ||| (m.cpu.e &&& 0xFF))
    { rd.2 with cpu := { rd.2.cpu with a := rd.1 } }
  else if op = 0x1B then
    let de := m16i (((((m.cpu.d &&& 0xFF) <<< 8) ||| (m.cpu.e &&& 0xFF) : Nat) : Int) - 1)
    tick { m with cpu := { m.cpu with d := (de >>> 8) &&& 0xFF, e := de &&& 0xFF } } 1
  else if op = 0x1C then
    let r := inc8 (m.cpu.e &&& 0xFF) m.cpu.f
    { m with cpu := { m.cpu with f := r.2, e := r.1 } }
  else if op = 0x1D then
    let r := dec8 (m.cpu.e &&& 0xFF) m.cpu.f
    { m with cpu := { m.cpu with f := r.2, e := r.1 } }
  else if op = 0x1E then
    let r := cpuFetch m
    { r.2 with cpu := { r.2.cpu with e := r.1 } }
  else if op = 0x1F then
    let a := m.cpu.a &&& 0xFF
    let c := a &&& 1
    { m with cpu := { m.cpu with
        a := (a >>> 1) ||| ((m.cpu.f <<< 3) &&& 0x80), f := c <<< 4 } }
  else if op = 0x20 then
    let rn := cpuFetch m
    if rn.2.cpu.f &&& 0x80 = 0 then jrRel rn.2 rn.1 else rn.2
  else if op = 0x21 then
    let r1 := cpuFetch m
    let m := { r1.2 with cpu := { r1.2.cpu with l := r1.1 } }
    let r2 := cpuFetch m
    { r2.2 with cpu := { r2.2.cpu with h := r2.1 } }
  else if op = 0x22 then
    let hl := ((m.cpu.h &&& 0xFF) <<< 8) ||| (m.cpu.l &&& 0xFF)
    let m := cpuWrite m hl (m.cpu.a &&& 0xFF)
    let hl := (hl + 1) &&& 0xFFFF
    { m with cpu := { m.cpu with h := hl >>> 8, l := hl &&& 0xFF } }
  else if op = 0x23 then
    let hl := ((((m.cpu.h &&& 0xFF) <<< 8) ||| (m.cpu.l &&& 0xFF)) + 1) &&& 0xFFFF
    tick { m with cpu := { m.cpu with h := (hl >>> 8) &&& 0xFF, l := hl &&& 0xFF } } 1
  else if op = 0x24 then
    let r := inc8 (m.cpu.h &&& 0xFF) m.cpu.f
    { m with cpu := { m.cpu with f := r.2, h := r.1 } }
  else if op = 0x25 then
    let r := dec8 (m.cpu.h &&& 0xFF) m.cpu.f
    { m with cpu := { m.cpu with f := r.2, h := r.1 } }
  else if op = 0x26 then
    let r := cpuFetch m
    { r.2 with cpu := { r.2.cpu with h := r.1 } }
  else if op = 0x27 then
    let r := daaFun (m.cpu.a &&& 0xFF) (m.cpu.f &&& 0xFF)
    { m with cpu := { m.cpu with a := r.1, f := r.2 } }
  else if op = 0x28 then
    let rn := cpuFetch m
    if rn.2.cpu.f &&& 0x80 ≠ 0 then jrRel rn.2 rn.1 else rn.2
  else if op = 0x29 then
    let hl := ((m.cpu.h &&& 0xFF) <<< 8) ||| (m.cpu.l &&& 0xFF)
    let result := hl <<< 1
    let f := (m.cpu.f &&& 0x80) |||
      (if 0xFFF < (hl &&& 0xFFF) * 2 then 0x20 else 0) |||
      (if 0xFFFF < result then 0x10 else 0)
    tick { m with cpu :=
      { m.cpu with f := f, h := (result >>> 8) &&& 0xFF, l := result &&& 0xFF } } 1
  else if op = 0x2A then
    let hl := ((m.cpu.h &&& 0xFF) <<< 8) ||| (m.cpu.l &&& 0xFF)
    let rd := cpuRead m hl
    let m := { rd.2 with cpu := { rd.2.cpu with a := rd.1 } }
    let hl := (hl + 1) &&& 0xFFFF
    { m with cpu := { m.cpu with h := hl >>> 8, l := hl &&& 0xFF } }
  else if op = 0x2B then
    let hl := m16i (((((m.cpu.h &&& 0xFF) <<< 8) ||| (m.cpu.l &&& 0xFF) : Nat) : Int) - 1)
    tick { m with cpu := { m.cpu with h := (hl >>> 8) &&& 0xFF, l := hl &&& 0xFF } } 1
  else if op = 0x2C then
    let r := inc8 (m.cpu.l &&& 0xFF) m.cpu.f
    { m with cpu := { m.cpu with f := r.2, l := r.1 } }
  else if op = 0x2D then
    let r := dec8 (m.cpu.l &&& 0xFF) m.cpu.f
    { m with cpu := { m.cpu with f := r.2, l := r.1 } }
  else if op = 0x2E then
    let r := cpuFetch m
    { r.2 with cpu := { r.2.cpu with l := r.1 } }
  else if op = 0x2F then
    { m with cpu := { m.cpu with
        a := ((m.cpu.a &&& 0xFF) ^^^ 0xFF) &&& 0xFF, f := m.cpu.f ||| 0x60 } }
  else if op = 0x30 then
    let rn := cpuFetch m
    if rn.2.cpu.f &&& 0x10 = 0 then jrRel rn.2 rn.1 else rn.2
  else if op = 0x31 then
    let ra := cpuFetchWord m
    { ra.2 with cpu := { ra.2.cpu with sp := ra.1 } }
  else if op = 0x32 then
    let hl := ((m.cpu.h &&& 0xFF) <<< 8) ||| (m.cpu.l &&& 0xFF)
    let m := cpuWrite m hl (m.cpu.a &&& 0xFF)
    let hl := m16i ((hl : Int) - 1)
    { m with cpu := { m.cpu with h := hl >>> 8, l := hl &&& 0xFF } }
  else if op = 0x33 then
    tick { m with cpu := { m.cpu with sp := (m.cpu.sp + 1) &&& 0xFFFF } } 1
  else if op = 0x34 then
    let hl := ((m.cpu.h &&& 0xFF) <<< 8) ||| (m.cpu.l &&& 0xFF)
    let rd := cpuRead m hl
    let r := inc8 rd.1 rd.2.cpu.f
    let m := { rd.2 with cpu := { rd.2.cpu with f := r.2 } }
    cpuWrite m hl r.1
  else if op = 0x35 then
    let hl := ((m.cpu.h &&& 0xFF) <<< 8) ||| (m.cpu.l &&& 0xFF)
    let rd := cpuRead m hl
    let r := dec8 rd.1 rd.2.cpu.f
    let m := { rd.2 with cpu := { rd.2.cpu with f := r.2 } }
    cpuWrite m hl r.1
  else if op = 0x36 then
    let rn := cpuFetch m
    cpuWrite rn.2 (((rn.2.cpu.h &&& 0xFF) <<< 8) ||| (rn.2.cpu.l &&& 0xFF)) rn.1
  else if op = 0x37 then
    { m with cpu := { m.cpu with f := (m.cpu.f &&& 0x80) ||| 0x10 } }
  else if op = 0x38 then
    let rn := cpuFetch m
    if rn.2.cpu.f &&& 0x10 ≠ 0 then jrRel rn.2 rn.1 else rn.2
  else if op = 0x39 then addHLrr m (m.cpu.sp &&& 0xFFFF)
  else if op = 0x3A then
    let hl := ((m.cpu.h &&& 0xFF) <<< 8) ||| (m.cpu.l &&& 0xFF)
    let rd := cpuRead m hl
    let m := { rd.2 with cpu := { rd.2.cpu with a := rd.1 } }
    let hl := m16i ((hl : Int) - 1)
    { m with cpu := { m.cpu with h := hl >>> 8, l := hl &&& 0xFF } }
  else if op = 0x3B then
    tick { m with cpu := { m.cpu with sp := m16i ((m.cpu.sp : Int) - 1) } } 1
  else if op = 0x3C then
    let r := inc8 (m.cpu.a &&& 0xFF) m.cpu.f
    { m with cpu := { m.cpu with f := r.2, a := r.1 } }
  else if op = 0x3D then
    let r := dec8 (m.cpu.a &&& 0xFF) m.cpu.f
    { m with cpu := { m.cpu with f := r.2, a := r.1 } }
  else if op = 0x3E then
    let r := cpuFetch m
    { r.2 with cpu := { r.2.cpu with a := r.1 } }
  else if op = 0x3F then
    { m with cpu := { m.cpu with
        f := (m.cpu.f &&& 0x80) ||| ((m.cpu.f ^^^ 0x10) &&& 0x10) } }
  else if 0x40 ≤ op ∧ op ≤ 0x7F then
    if op = 0x76 then haltFun m else ldRR m op
  else if 0x80 ≤ op ∧ op ≤ 0xBF then aluFun m op
  else executeCxFx m op

/-- Priority scan of the interrupt-dispatch loop in `CPU.step`: the first
set bit of `pending`, lowest (VBlank) first. -/
def irqIndex (pending : Nat) : Option Nat :=
  if pending &&& 1 ≠ 0 then some 0
  else if pending &&& 2 ≠ 0 then some 1
  else if pending &&& 4 ≠ 0 then some 2
  else if pending &&& 8 ≠ 0 then some 3
  else if pending &&& 16 ≠ 0 then some 4
  else none

/-- Interrupt service body of `CPU.step`: clear the IF bit, 2 internal
M-cycles, push PC, jump to the vector, 1 internal M-cycle. -/
def serviceIrq (m : Mach) (ifr i : Nat) : Mach :=
  let m := { m with mem := { m.mem with
    ioRegs := upd m.mem.ioRegs 0x0F (ifr &&& (0xFF ^^^ (1 <<< i))) } }
  let m := tick m 2
  let m := pushWord m m.cpu.pc
  let m := { m with cpu := { m.cpu with pc := (0x40 + (i <<< 3)) &&& 0xFFFF } }
  tick m 1

/-- Fetch-and-execute tail of `CPU.step`. -/
def fetchExec (m : Mach) : Mach :=
  let r := cpuFetch m
  execute r.2 r.1

/-- The halted check and fetch/execute tail of `CPU.step`: a halted CPU
with a pending interrupt wakes and falls through to the fetch; a halted
CPU with none ticks once and returns. -/
def haltedOrExec (m : Mach) (pending : Nat) : Mach :=
  if m.cpu.halted then
    if pending ≠ 0 then fetchExec { m with cpu := { m.cpu with halted := false } }
    else tick m 1
  else fetchExec m

/-- The dispatch taken when IME is set and an interrupt is pending: the
priority loop of `CPU.step`; an empty scan (impossible, since `pending`
is nonzero) falls through to the halted check like the source loop. -/
def irqDispatch (m : Mach) (ifr pending : Nat) : Mach :=
  match irqIndex pending with
  | some i => serviceIrq m ifr i
  | none => haltedOrExec m pending

/-- One CPU step (`CPU.step`): reset the cycle counter, apply a pending
EI delay, then either service an interrupt or execute one opcode.  The
T-cycles consumed are left in `cpu.cycles` of the result. -/
def stepF (m : Mach) : Mach :=
  let m := { m with cpu := { m.cpu with cycles := 0 } }
  let m :=
    if 0 < m.cpu.eiDelay then
      let d := m.cpu.eiDelay - 1
      { m with cpu :=
          { m.cpu with eiDelay := d, ime := if d = 0 then true else m.cpu.ime } }
    else m
  let ie := m.mem.ie &&& 0xFF
  let ifr := m.mem.ioRegs 0x0F &&& 0xFF
  let pending := ie &&& ifr &&& 0x1F
  if m.cpu.ime = true ∧ pending ≠ 0 then
    irqDispatch { m with cpu := { m.cpu with halted := false, ime := false } } ifr pending
  else haltedOrExec m pending

/-- The safety bound of `GameBoy.run_frame`: `70224 * 2` loop iterations
(CPU steps). -/
def maxFrameSteps : Nat := 70224 * 2

/-- The `while not ppu.frame_ready and steps < max_steps` loop of
`GameBoy.run_frame`, with the remaining iteration budget as fuel;
accumulates the step count and the total T-cycles the steps consumed. -/
def runFrameAux : Nat → Mach → Nat → Nat → Mach × Nat × Nat
  | 0, m, steps, tot => (m, steps, tot)
  | fuel + 1, m, steps, tot =>
    if m.ppu.frameReady then (m, steps, tot)
    else
      let m2 := stepF m
      runFrameAux fuel m2 (steps + 1) (tot + m2.cpu.cycles)

/-- One frame of emulation (`GameBoy.run_frame`): clear `frame_ready`,
then loop `stepF` until the PPU raises it or the safety bound is hit.
Returns the final machine, the number of `step()` calls made and the
total T-cycles of emulated work (the sum of the values `step()`
returned).  The APU `end_frame` call is a no-op with no audio device. -/
def runFrame (m : Mach) : Mach × Nat × Nat :=
  runFrameAux maxFrameSteps
    { m with ppu := { m.ppu with frameReady := false } } 0 0

/-- A quiescent CPU register file used as a base for concrete runs:
execution placed in work RAM, stack in work RAM, interrupts off. -/
def cpu0 : CpuR :=
  { a := 0, b := 0, c := 0, d := 0, e := 0, f := 0, h := 0, l := 0,
    sp := 0xD000, pc := 0xC000, halted := false, ime := false,
    haltBug := false, eiDelay := 0, cycles := 0 }

/-- Zeroed memory arrays (fresh bytearrays) with IE clear. -/
def mem0 : MemR :=
  { vram := fun _ => 0, wram := fun _ => 0, oam := fun _ => 0,
    hram := fun _ => 0, ioRegs := fun _ => 0, ie := 0 }

/-- Zeroed timer. -/
def tmr0 : TmrR := { tdiv := 0, tima := 0, tma := 0, tac := 0, timaCycles := 0 }

/-- A PPU with the LCD disabled (LCDC bit 7 clear) and all registers
clear; palette caches as initialised by `PPU.__init__` (identity). -/
def ppu0 : PpuR :=
  { lcdc := 0, statR := 0, scy := 0, scx := 0, ly := 0, lyc := 0,
    bgp := 0, obp0 := 0, obp1 := 0, wy := 0, wx := 0,
    mode := 0, pcycles := 0, windowLine := 0, frameReady := false,
    fb := fun _ _ => 0, bgPal := fun i => i, objPal0 := fun i => i,
    objPal1 := fun i => i, bgPriority := fun _ => 0 }

/-- APU register state as left by `APU.__init__`. -/
def apu0 : ApuR :=
  { masterEnable := true, volLeft := 7, volRight := 7,
    panLeft := fun _ => true, panRight := fun _ => true,
    ch1Enabled := false, ch1Dac := false, ch1Duty := 2, ch1Freq := 0,
    ch1Vol := 0, ch1VolInit := 0, ch1EnvAdd := false, ch1EnvPeriod := 0,
    ch1Length := 0, ch1LengthEn := false, ch1SweepPeriod := 0,
    ch1SweepNeg := false, ch1SweepShift := 0,
    ch2Enabled := false, ch2Dac := false, ch2Duty := 2, ch2Freq := 0,
    ch2Vol := 0, ch2VolInit := 0, ch2EnvAdd := false, ch2EnvPeriod := 0,
    ch2Length := 0, ch2LengthEn := false,
    ch3Enabled := false, ch3Dac := false, ch3Freq := 0, ch3VolCode := 0,
    ch3Length := 0, ch3LengthEn := false, ch3Wave := fun _ => 0,
    ch4Enabled := false, ch4Dac := false, ch4Vol := 0, ch4VolInit := 0,
    ch4EnvAdd := false, ch4EnvPeriod := 0, ch4Length := 0,
    ch4LengthEn := false, ch4ClockShift := 0, ch4Width := false,
    ch4Divisor := 0, ch4Lfsr := 0x7FFF, frameSeq := 0 }

/-- Base machine for the concrete runs below. -/
def mach0 : Mach := { cpu := cpu0, mem := mem0, tmr := tmr0, ppu := ppu0, apu := apu0 }

/-- HALT-bug scenario of §8.4 of the spec: IME=0, IE=0x01, IF=0x01,
`HALT` at 0xC000 followed by `INC A`, A=0. -/
def machHalt : Mach :=
  { mach0 with mem :=
      { mem0 with wram := fun a => if a = 0 then 0x76 else if a = 1 then 0x3C else 0,
                  ioRegs := fun r => if r = 0x0F then 1 else 0,
                  ie := 1 } }

/-- EI scenario: IME=0, IE=0x01, IF=0x01 (VBlank pending and enabled),
`EI` at 0xC000 followed by `INC A`, A=0. -/
def machEi : Mach :=
  { mach0 with mem :=
      { mem0 with wram := fun a => if a = 0 then 0xFB else if a = 1 then 0x3C else 0,
                  ioRegs := fun r => if r = 0x0F then 1 else 0,
                  ie := 1 } }

/-- DAA scenario of §8.3 of the spec: A=0x15, F=0, `ADD A,0x27` then
`DAA` at 0xC000. -/
def machDaa : Mach :=
  { mach0 with
      cpu := { cpu0 with a := 0x15 },
      mem := { mem0 with wram := fun a =>
                 if a = 0 then 0xC6 else if a = 1 then 0x27
                 else if a = 2 then 0x27 else 0 } }

/-- Illegal-opcode scenario: opcode 0xD3 at 0xC000. -/
def machIll : Mach :=
  { mach0 with mem := { mem0 with wram := fun a => if a = 0 then 0xD3 else 0 } }

/-- Sprite-priority scenario of §8.5 of the spec: two 8x8 sprites at
identical coordinates y=16, x=10 in OAM slots 0 and 1; slot 0 uses tile
1 (drawing colour index 1 on its top line), slot 1 uses tile 2 (drawing
colour index 3); identity object palette; sprites enabled, background
disabled; rendering line 0. -/
def machSpr : Mach :=
  { mach0 with
      ppu := { ppu0 with lcdc := 0x02, ly := 0, obp0 := 0xE4 },
      mem := { mem0 with
        oam := fun a =>
          if a = 0 then 16 else if a = 1 then 10 else if a = 2 then 1
          else if a = 4 then 16 else if a = 5 then 10 else if a = 6 then 2
          else 0,
        vram := fun a =>
          if a = 16 then 0xFF else if a = 32 then 0xFF
          else if a = 33 then 0xFF else 0 } }

end PyDMG

set_option maxRecDepth 1000000
set_option maxHeartbeats 2000000

namespace PyDMG

/-- A machine identical to `machIll` but with a NOP in place of the
illegal opcode, for comparison. -/
def machNop : Mach := mach0

/-- The eleven opcode bytes the spec lists as illegal. -/
def illegalOps : List Nat :=
  [0xD3, 0xDB, 0xDD, 0xE3, 0xE4, 0xEB, 0xEC, 0xED, 0xF4, 0xFC, 0xFD]

/-- A disabled PPU frozen mid-frame: LY=100, mode 1. -/
def ppuOff100 : PpuR := { ppu0 with ly := 100, mode := 1 }

/-- The machine carrying `ppuOff100`. -/
def machOff100 : Mach := { mach0 with ppu := ppuOff100 }

end PyDMG

namespace PyDMG

/-- C1: the source sets the `halt_bug` flag when HALT executes with IME=0
and a pending enabled interrupt, but never reads it: on the spec's §8.4
scenario (IME=0, IE=0x01, IF=0x01, HALT at 0xC000 then INC A with A=0)
the step after HALT fetches at 0xC001 and increments PC normally, so INC
A executes once — A ends at 0x01 with PC=0xC002, not A=0x02 with the
opcode byte at HALT+1 fetched twice as the claim states. -/
theorem halt_bug_flag_never_consumed :
    (stepF machHalt).cpu.pc = 0xC001 ∧
    (stepF machHalt).cpu.haltBug = true ∧
    (stepF machHalt).cpu.halted = false ∧
    (stepF (stepF machHalt)).cpu.pc = 0xC002 ∧
    (stepF (stepF machHalt)).cpu.a = 0x01 ∧
    (stepF (stepF (stepF machHalt))).cpu.a = 0x01 := by
  refine ⟨by decide, by decide, by decide, by decide, by decide, by decide⟩

/-- C2: EI sets `ei_delay = 1`; the next `step()` decrements it and sets
IME *before* the interrupt check of the same call, so with a pending
enabled interrupt the step after EI services the interrupt instead of
executing the following instruction: from the `machEi` scenario (EI then
INC A, IE=IF=0x01) two steps land at the VBlank vector 0x0040 with A
still 0 and the 20-T-cycle dispatch cost, while the claim requires INC A
to run first.  (EI's own step only arms the delay.) -/
theorem ei_enables_before_following_instruction :
    (stepF machEi).cpu.eiDelay = 1 ∧
    (stepF machEi).cpu.ime = false ∧
    (stepF (stepF machEi)).cpu.pc = 0x0040 ∧
    (stepF (stepF machEi)).cpu.a = 0 ∧
    (stepF (stepF machEi)).cpu.cycles = 20 := by
  refine ⟨by decide, by decide, by decide, by decide, by decide⟩

/-- C3 counterexample: with LCDC bit 7 clear and the PPU frozen at
LY=100, mode 1, a 456-cycle `PPU.step` leaves LY=100 and mode 1, and the
LY register (0xFF44) reads back 100, not 0 as the claim states. -/
theorem lcd_off_ly_not_forced_zero :
    (ppuStep ppuOff100 mem0 456).1.ly = 100 ∧
    (ppuStep ppuOff100 mem0 456).1.mode = 1 ∧
    mmuRead machOff100 0xFF44 = 100 ∧
    (100 : Nat) ≠ 0 := by
  refine ⟨by decide, by decide, by decide, by decide⟩

/-- C3 amended: while LCDC bit 7 is clear, `PPU.step` is a no-op — the
whole PPU state (LY and mode included, at whatever values they held when
the bit was cleared) and the MMU state are unchanged, so no interrupt is
raised and nothing is rendered; nothing resets LY to 0 or forces mode 0,
and re-enabling resumes from the frozen state. -/
theorem lcd_off_ppu_step_noop (p : PpuR) (mem : MemR) (cycles : Nat)
    (h : p.lcdc &&& 0x80 = 0) : ppuStep p mem cycles = (p, mem) := by
  unfold ppuStep
  simp [h]

/-- Witness for `lcd_off_ppu_step_noop` at a concrete disabled PPU. -/
theorem lcd_off_ppu_step_noop_witness :
    ppuOff100.lcdc &&& 0x80 = 0 ∧ ppuStep ppuOff100 mem0 456 = (ppuOff100, mem0) :=
  ⟨by decide, lcd_off_ppu_step_noop ppuOff100 mem0 456 (by decide)⟩

/-- C4: on the spec's §8.5 X-tie scenario (OAM slots 0 and 1 both at
y=16, x=10; slot 0 drawing colour 1, slot 1 drawing colour 3) the
rendered pixel at line 0, screen x 2 is 3 — the colour of the *higher*
OAM slot — because the source sorts by X descending with a stable bubble
sort and draws forward, so on an X tie the later OAM entry is drawn last
and overwrites; the claim (and DMG hardware) require slot 0's colour 1,
which drawing slot 0 alone indeed produces. -/
theorem sprite_x_tie_higher_oam_index_on_top :
    (renderScanline machSpr.ppu machSpr.mem).fb 0 2 = 3 ∧
    (drawSprite machSpr.mem 0 8 (updatePalettes machSpr.ppu) (2, 0)).fb 0 2 = 1 ∧
    (3 : Nat) ≠ 1 := by
  refine ⟨by decide, by decide, by decide⟩

/-- C5 counterexample: fetching the illegal opcode 0xD3 neither stalls
the CPU nor surfaces anything: the step leaves the CPU not halted, PC
advanced past the opcode, 4 T-cycles consumed, and the CPU state equal
to that after executing a NOP — execution simply continues. -/
theorem illegal_opcode_continues_like_nop :
    (stepF machIll).cpu.halted = false ∧
    (stepF machIll).cpu.pc = 0xC001 ∧
    (stepF machIll).cpu.cycles = 4 ∧
    (stepF machIll).cpu = (stepF machNop).cpu := by
  refine ⟨by decide, by decide, by decide, by rfl⟩

/-- C5 amended: each of the eleven illegal opcode bytes falls through
`CPU._execute_cx_fx` without any effect — the handler is the identity on
the machine state, so the CPU treats illegal opcodes as NOPs: no stall
state is entered and no fault is reported. -/
theorem illegal_opcode_handler_identity (m : Mach) (op : Nat)
    (h : op ∈ illegalOps) : executeCxFx m op = m := by
  fin_cases h <;> rfl

/-- Witness for `illegal_opcode_handler_identity` at opcode 0xD3. -/
theorem illegal_opcode_handler_identity_witness :
    0xD3 ∈ illegalOps ∧ executeCxFx mach0 0xD3 = mach0 :=
  ⟨by decide, illegal_opcode_handler_identity mach0 0xD3 (by decide)⟩

/-- C6: writing any value to DIV (0xFF04) zeroes the Timer's internal
16-bit counter, and a subsequent read of 0xFF04 — the counter's high
byte — returns 0, for every machine state and every written value. -/
theorem div_write_then_read_zero (m : Mach) (v : Nat) :
    mmuRead (mmuWrite m 0xFF04 v) 0xFF04 = 0 ∧
    (mmuWrite m 0xFF04 v).tmr.tdiv = 0 ∧
    mmuRead m 0xFF04 = (m.tmr.tdiv >>> 8) &&& 0xFF := by
  have hff : (0xFF &&& 0xFF : Nat) = 0xFF := by decide
  have h2 : (mmuWrite m 0xFF04 v).tmr.tdiv = 0 := rfl
  have h1 : mmuRead (mmuWrite m 0xFF04 v) 0xFF04
      = (((mmuWrite m 0xFF04 v).tmr.tdiv >>> 8) &&& 0xFF) &&& 0xFF := rfl
  have h3 : mmuRead m 0xFF04 = ((m.tmr.tdiv >>> 8) &&& 0xFF) &&& 0xFF := rfl
  refine ⟨?_, h2, ?_⟩
  · rw [h1, h2]
    decide
  · rw [h3, Nat.land_assoc, hff]

/-- C10: while NR52 bit 7 (the APU master enable) is clear, `APU.write`
ignores every register address whose low six bits are neither 0x26
(NR52) nor in wave RAM 0x30–0x3F; in particular all of NR10–NR51
(0xFF10–0xFF25) are ignored and the APU state is unchanged. -/
theorem apu_write_gated_when_master_off (u : ApuR) (addr v : Nat)
    (hm : u.masterEnable = false)
    (h26 : addr &&& 0x3F ≠ 0x26)
    (hw : ¬ (0x30 ≤ addr &&& 0x3F ∧ addr &&& 0x3F ≤ 0x3F)) :
    apuWrite u addr v = u := by
  unfold apuWrite
  simp [hm, h26, hw]

/-- Witness for `apu_write_gated_when_master_off`: a powered-off APU
ignores a write to NR12 (0xFF12, low bits 0x12). -/
theorem apu_write_gated_when_master_off_witness :
    ({ apu0 with masterEnable := false } : ApuR).masterEnable = false ∧
    apuWrite { apu0 with masterEnable := false } 0x12 0xFF
      = { apu0 with masterEnable := false } :=
  ⟨rfl, apu_write_gated_when_master_off { apu0 with masterEnable := false }
    0x12 0xFF rfl (by decide) (by decide)⟩

end PyDMG

namespace PyDMG

/-- Rewriting helper: fold an inner literal conjunction of masks. -/
theorem land_land_lit (f x y z : Nat) (h : x &&& y = z) :
    (f &&& x) &&& y = f &&& z := by
  rw [Nat.land_assoc, h]

/-- The DAA result flags, unfolded to the N/Z/C flag word over the two
decisive conditions. -/
theorem daaFun_f_eq (a f : Nat) :
    (daaFun a f).2 =
      (f &&& 0x40) ||| (if (daaFun a f).1 = 0 then 0x80 else 0) |||
        (if f &&& 0x10 ≠ 0 ∨ (f &&& 0x40 = 0 ∧ 0x99 < a) then 0x10 else 0) := rfl

theorem fw_and40 (f : Nat) (p q : Prop) [Decidable p] [Decidable q] :
    (((f &&& 0x40) ||| (if p then 0x80 else 0) ||| (if q then 0x10 else 0)) &&& 0x40)
      = f &&& 0x40 := by
  rw [land_lor_right, land_lor_right, land_land_lit f 0x40 0x40 0x40 (by decide),
    (by split_ifs <;> decide : ((if p then 0x80 else 0 : Nat) &&& 0x40) = 0),
    (by split_ifs <;> decide : ((if q then 0x10 else 0 : Nat) &&& 0x40) = 0)]
  simp

theorem fw_and20 (f : Nat) (p q : Prop) [Decidable p] [Decidable q] :
    (((f &&& 0x40) ||| (if p then 0x80 else 0) ||| (if q then 0x10 else 0)) &&& 0x20)
      = 0 := by
  rw [land_lor_right, land_lor_right, land_land_lit f 0x40 0x20 0 (by decide),
    (by split_ifs <;> decide : ((if p then 0x80 else 0 : Nat) &&& 0x20) = 0),
    (by split_ifs <;> decide : ((if q then 0x10 else 0 : Nat) &&& 0x20) = 0)]
  simp

theorem fw_and10 (f : Nat) (p q : Prop) [Decidable p] [Decidable q] :
    ((((f &&& 0x40) ||| (if p then 0x80 else 0) ||| (if q then 0x10 else 0)) &&& 0x10)
      = 0x10) ↔ q := by
  rw [land_lor_right, land_lor_right, land_land_lit f 0x40 0x10 0 (by decide),
    (by split_ifs <;> decide : ((if p then 0x80 else 0 : Nat) &&& 0x10) = 0),
    (by split_ifs <;> decide :
      ((if q then 0x10 else 0 : Nat) &&& 0x10) = (if q then 0x10 else 0))]
  simp only [Nat.and_zero, Nat.zero_or]
  split_ifs with hq
  · simp [hq]
  · simp [hq]

theorem fw_and80 (f : Nat) (p q : Prop) [Decidable p] [Decidable q] :
    ((((f &&& 0x40) ||| (if p then 0x80 else 0) ||| (if q then 0x10 else 0)) &&& 0x80)
      = 0x80) ↔ p := by
  rw [land_lor_right, land_lor_right, land_land_lit f 0x40 0x80 0 (by decide),
    (by split_ifs <;> decide :
      ((if p then 0x80 else 0 : Nat) &&& 0x80) = (if p then 0x80 else 0)),
    (by split_ifs <;> decide : ((if q then 0x10 else 0 : Nat) &&& 0x80) = 0)]
  simp only [Nat.and_zero, Nat.zero_or, Nat.or_zero]
  split_ifs with hp
  · simp [hp]
  · simp [hp]

/-- C8: after DAA, N is preserved, H is cleared, C is set iff the
0x60 high-nibble correction was applied (C already set, or an addition
result above 0x99) and Z is set iff the adjusted A is zero — for every
A and F input; and on the spec's §8.3 scenario, ADD A,0x27 from A=0x15,
F=0 followed by DAA yields A=0x42 with Z=N=H=C=0. -/
theorem daa_adjusts_flags_as_specified (a f : Nat) :
    (daaFun a f).2 &&& 0x40 = f &&& 0x40 ∧
    (daaFun a f).2 &&& 0x20 = 0 ∧
    ((daaFun a f).2 &&& 0x10 = 0x10 ↔
      (f &&& 0x10 ≠ 0 ∨ (f &&& 0x40 = 0 ∧ 0x99 < a))) ∧
    ((daaFun a f).2 &&& 0x80 = 0x80 ↔ (daaFun a f).1 = 0) ∧
    (stepF (stepF machDaa)).cpu.a = 0x42 ∧
    (stepF (stepF machDaa)).cpu.f = 0 := by
  rw [daaFun_f_eq]
  exact ⟨fw_and40 f _ _, fw_and20 f _ _, fw_and10 f _ _, fw_and80 f _ _,
    by decide, by decide⟩

/-- Witness for `daa_adjusts_flags_as_specified` at A=0x9A, F=0 (an
addition result above 0x99, so the C-iff fires on its second disjunct). -/
theorem daa_adjusts_flags_witness :
    (daaFun 0x9A 0).2 &&& 0x40 = 0 &&& 0x40 ∧ (daaFun 0x9A 0).2 &&& 0x10 = 0x10 :=
  ⟨(daa_adjusts_flags_as_specified 0x9A 0).1,
   ((daa_adjusts_flags_as_specified 0x9A 0).2.2.1).mpr (by decide)⟩

end PyDMG

namespace PyDMG

/-- A halted machine with the LCD off, interrupts disabled and the TIMA
counter off: software has halted without ever producing VBlank. -/
def machHalted : Mach := { mach0 with cpu := { cpu0 with halted := true } }

/-- One step of a halted machine with IME off, nothing pending, the LCD
off and TIMA disabled is exactly the 4-T-cycle halted tick: only the
cycle counter and DIV move. -/
theorem stepF_halted_quiet (m : Mach)
    (hh : m.cpu.halted = true) (hi : m.cpu.ime = false) (he : m.cpu.eiDelay = 0)
    (hie : m.mem.ie = 0) (hl : m.ppu.lcdc = 0) (ht : m.tmr.tac = 0) :
    stepF m = { m with cpu := { m.cpu with cycles := 4 },
                       tmr := { m.tmr with tdiv := (m.tmr.tdiv + 4) &&& 0xFFFF } } := by
  have h4 : (1 <<< 2 : Nat) = 4 := by decide
  unfold stepF haltedOrExec tick timerStep ppuStep
  simp [hh, hi, he, hie, hl, ht, h4]

/-- Over the quiet-halt invariant, `runFrameAux` consumes its whole fuel,
every iteration costing 4 T-cycles. -/
theorem runFrameAux_quiet (fuel : Nat) :
    ∀ (m : Mach) (steps tot : Nat),
      m.cpu.halted = true → m.cpu.ime = false → m.cpu.eiDelay = 0 →
      m.mem.ie = 0 → m.ppu.lcdc = 0 → m.tmr.tac = 0 → m.ppu.frameReady = false →
      (runFrameAux fuel m steps tot).2.2 = tot + 4 * fuel ∧
      (runFrameAux fuel m steps tot).2.1 = steps + fuel := by
  induction fuel with
  | zero =>
    intro m steps tot _ _ _ _ _ _ _
    exact ⟨by simp [runFrameAux], by simp [runFrameAux]⟩
  | succ n ih =>
    intro m steps tot hh hi he hie hl ht hf
    have hstep := stepF_halted_quiet m hh hi he hie hl ht
    have hcyc : (stepF m).cpu.cycles = 4 := by rw [hstep]
    have hhh : (stepF m).cpu.halted = true := by rw [hstep]; exact hh
    have hii : (stepF m).cpu.ime = false := by rw [hstep]; exact hi
    have hee : (stepF m).cpu.eiDelay = 0 := by rw [hstep]; exact he
    have hiee : (stepF m).mem.ie = 0 := by rw [hstep]; exact hie
    have hll : (stepF m).ppu.lcdc = 0 := by rw [hstep]; exact hl
    have htt : (stepF m).tmr.tac = 0 := by rw [hstep]; exact ht
    have hff : (stepF m).ppu.frameReady = false := by rw [hstep]; exact hf
    obtain ⟨e1, e2⟩ := ih (stepF m) (steps + 1) (tot + (stepF m).cpu.cycles)
      hhh hii hee hiee hll htt hff
    simp only [runFrameAux, hf, Bool.false_eq_true, if_false]
    rw [e1, e2, hcyc]
    exact ⟨by omega, by omega⟩

/-- C9 counterexample: from `machHalted` — a state the safety bound is
meant for, since frame_ready can never be raised with the LCD off —
`run_frame` performs 2·70224 CPU steps totalling 4·2·70224 = 561792
T-cycles of emulated work, exceeding the claimed bound of 2·70224
T-cycles per frame (and no "LCD off" condition exists to be surfaced:
the loop just returns the framebuffer). -/
theorem run_frame_tcycle_bound_false :
    (runFrame machHalted).2.2 = 561792 ∧
    ¬ ((runFrame machHalted).2.2 ≤ 2 * 70224) := by
  have h := runFrameAux_quiet maxFrameSteps
      { machHalted with ppu := { machHalted.ppu with frameReady := false } } 0 0
      rfl rfl rfl rfl rfl rfl rfl
  have e : runFrame machHalted
      = runFrameAux maxFrameSteps
          { machHalted with ppu := { machHalted.ppu with frameReady := false } }
          0 0 := rfl
  have hv : (0 + 4 * maxFrameSteps : Nat) = 561792 := by norm_num [maxFrameSteps]
  constructor
  · rw [e, h.1, hv]
  · rw [e, h.1, hv]
    omega

/-- Per-fuel bound of the frame loop: it makes at most `fuel` further
steps, and stops short of the bound only with `frame_ready` raised. -/
theorem runFrameAux_bound (fuel : Nat) :
    ∀ (m : Mach) (steps tot : Nat),
      (runFrameAux fuel m steps tot).2.1 ≤ steps + fuel ∧
      ((runFrameAux fuel m steps tot).1.ppu.frameReady = true ∨
        (runFrameAux fuel m steps tot).2.1 = steps + fuel) := by
  induction fuel with
  | zero =>
    intro m steps tot
    exact ⟨by simp [runFrameAux], Or.inr (by simp [runFrameAux])⟩
  | succ n ih =>
    intro m steps tot
    by_cases hf : m.ppu.frameReady = true
    · refine ⟨?_, Or.inl ?_⟩ <;> simp [runFrameAux, hf]
    · have hf2 : m.ppu.frameReady = false := by
        cases hq : m.ppu.frameReady
        · rfl
        · exact absurd hq hf
      obtain ⟨b1, b2⟩ := ih (stepF m) (steps + 1) (tot + (stepF m).cpu.cycles)
      simp only [runFrameAux, hf2, Bool.false_eq_true, if_false]
      refine ⟨by omega, ?_⟩
      rcases b2 with hb | hb
      · exact Or.inl hb
      · exact Or.inr (by omega)

/-- C9 amended: `run_frame` always terminates — the loop is bounded by
2·70224 iterations of `cpu.step` (instructions, not T-cycles): it makes
at most `maxFrameSteps` step calls, and makes fewer only when the PPU
raised `frame_ready`; hitting the bound returns the framebuffer without
surfacing any "LCD off, no frame" condition (no such channel exists). -/
theorem run_frame_is_step_bounded (m : Mach) :
    (runFrame m).2.1 ≤ maxFrameSteps ∧
    ((runFrame m).1.ppu.frameReady = true ∨ (runFrame m).2.1 = maxFrameSteps) := by
  have h := runFrameAux_bound maxFrameSteps
      { m with ppu := { m.ppu with frameReady := false } } 0 0
  have e : runFrame m
      = runFrameAux maxFrameSteps
          { m with ppu := { m.ppu with frameReady := false } } 0 0 := rfl
  rw [e]
  refine ⟨by have := h.1; omega, ?_⟩
  rcases h.2 with hb | hb
  · exact Or.inl hb
  · exact Or.inr (by omega)

end PyDMG

namespace PyDMG

/-- Folding a CPU-preserving function preserves the CPU registers. -/
theorem foldl_cpu_preserved {α : Type} (l : List α) :
    ∀ (g : Mach → α → Mach), (∀ m x, (g m x).cpu = m.cpu) →
      ∀ m : Mach, (l.foldl g m).cpu = m.cpu := by
  induction l with
  | nil => intro g _ m; rfl
  | cons x xs ih => intro g hg m; rw [List.foldl_cons, ih g hg, hg]

theorem dmaTransfer_cpu (m : Mach) (v : Nat) : (dmaTransfer m v).cpu = m.cpu := by
  unfold dmaTransfer
  dsimp only
  refine foldl_cpu_preserved _ _ ?_ _
  intro m x
  rfl

theorem writeIoComp_cpu (m : Mach) (r v : Nat) : (writeIoComp m r v).cpu = m.cpu := by
  unfold writeIoComp
  simp only [apply_ite Mach.cpu, dmaTransfer_cpu, ite_self]

theorem writeIo_cpu (m : Mach) (a v : Nat) : (writeIo m a v).cpu = m.cpu := by
  unfold writeIo
  dsimp only
  simp only [apply_ite Mach.cpu, writeIoComp_cpu, ite_self]

theorem mmuWrite_cpu (m : Mach) (a v : Nat) : (mmuWrite m a v).cpu = m.cpu := by
  unfold mmuWrite
  dsimp only
  simp only [apply_ite Mach.cpu, writeIo_cpu, ite_self]

theorem tick_cpu_f (m : Mach) (n : Nat) : (tick m n).cpu.f = m.cpu.f := rfl

theorem cpuWrite_cpu_f (m : Mach) (a v : Nat) :
    (cpuWrite m a v).cpu.f = m.cpu.f := by
  unfold cpuWrite
  rw [mmuWrite_cpu, tick_cpu_f]

theorem cpuFetch_cpu_f (m : Mach) : (cpuFetch m).2.cpu.f = m.cpu.f := rfl

theorem cpuFetchWord_cpu_f (m : Mach) : (cpuFetchWord m).2.cpu.f = m.cpu.f := rfl

theorem cpuRead_cpu_f (m : Mach) (a : Nat) : (cpuRead m a).2.cpu.f = m.cpu.f := rfl

theorem popWord_cpu_f (m : Mach) : (popWord m).2.cpu.f = m.cpu.f := rfl

theorem pushWord_cpu_f (m : Mach) (v : Nat) :
    (pushWord m v).cpu.f = m.cpu.f := by
  simp [pushWord, cpuWrite_cpu_f]

theorem setReg_cpu_f (m : Mach) (r v : Nat) :
    (setReg m r v).cpu.f = m.cpu.f := by
  unfold setReg
  split_ifs <;> first | rfl | exact cpuWrite_cpu_f _ _ _

theorem getReg_cpu_f (m : Mach) (r : Nat) :
    (getReg m r).2.cpu.f = m.cpu.f := by
  unfold getReg
  split_ifs <;> rfl

theorem jrRel_cpu_f (m : Mach) (n : Nat) : (jrRel m n).cpu.f = m.cpu.f := rfl

theorem haltFun_cpu_f (m : Mach) : (haltFun m).cpu.f = m.cpu.f := by
  unfold haltFun
  dsimp only
  split_ifs <;> rfl

theorem ldRR_cpu_f (m : Mach) (op : Nat) : (ldRR m op).cpu.f = m.cpu.f := by
  unfold ldRR
  rw [setReg_cpu_f, getReg_cpu_f]

theorem callTo_cpu_f (m : Mach) (t : Nat) : (callTo m t).cpu.f = m.cpu.f := by
  simp [callTo, pushWord_cpu_f, tick_cpu_f]

theorem retIf_cpu_f (m : Mach) (c : Mach → Bool) :
    (retIf m c).cpu.f = m.cpu.f := by
  unfold retIf
  dsimp only
  split_ifs <;> simp [tick_cpu_f, popWord_cpu_f]

theorem jpIf_cpu_f (m : Mach) (c : Mach → Bool) :
    (jpIf m c).cpu.f = m.cpu.f := by
  unfold jpIf
  dsimp only
  split_ifs <;> simp [tick_cpu_f, cpuFetchWord_cpu_f]

theorem callIf_cpu_f (m : Mach) (c : Mach → Bool) :
    (callIf m c).cpu.f = m.cpu.f := by
  unfold callIf
  dsimp only
  split_ifs <;> simp [callTo_cpu_f, cpuFetchWord_cpu_f]

theorem serviceIrq_cpu_f (m : Mach) (ifr i : Nat) :
    (serviceIrq m ifr i).cpu.f = m.cpu.f := by
  simp [serviceIrq, tick_cpu_f, pushWord_cpu_f]

end PyDMG

namespace PyDMG

theorem lowClear_ite_iff (c : Prop) [Decidable c] (x y : Nat) :
    lowClear (if c then x else y) ↔ (if c then lowClear x else lowClear y) := by
  split_ifs <;> exact Iff.rfl

theorem lc_zero : lowClear 0 := by unfold lowClear; decide
theorem lc_x10 : lowClear 0x10 := by unfold lowClear; decide
theorem lc_x20 : lowClear 0x20 := by unfold lowClear; decide
theorem lc_x40 : lowClear 0x40 := by unfold lowClear; decide
theorem lc_x60 : lowClear 0x60 := by unfold lowClear; decide
theorem lc_x80 : lowClear 0x80 := by unfold lowClear; decide

theorem lc_land_x10 (x : Nat) : lowClear (x &&& 0x10) := lowClear_land_right x lc_x10
theorem lc_land_x40 (x : Nat) : lowClear (x &&& 0x40) := lowClear_land_right x lc_x40
theorem lc_land_x80 (x : Nat) : lowClear (x &&& 0x80) := lowClear_land_right x lc_x80
theorem lc_land_xF0 (x : Nat) : lowClear (x &&& 0xF0) :=
  lowClear_land_right x (by unfold lowClear; decide)

theorem lc_incFlags (f v r : Nat) : lowClear (incFlags f v r) := by
  unfold incFlags
  simp only [lowClear_lor, lowClear_ite_iff]
  exact ⟨⟨lc_land_x10 f, by split_ifs <;> first | exact lc_x80 | exact lc_zero⟩,
    by split_ifs <;> first | exact lc_x20 | exact lc_zero⟩

theorem lc_decFlags (f v r : Nat) : lowClear (decFlags f v r) := by
  unfold decFlags
  simp only [lowClear_lor, lowClear_ite_iff]
  refine ⟨⟨⟨lc_land_x10 f, lc_x40⟩, ?_⟩, ?_⟩ <;>
    split_ifs <;> first | exact lc_x80 | exact lc_x20 | exact lc_zero

theorem lc_inc8 (v f : Nat) : lowClear ((inc8 v f).2) := lc_incFlags f v _
theorem lc_dec8 (v f : Nat) : lowClear ((dec8 v f).2) := lc_decFlags f v _

theorem lc_addFlags (a v r : Nat) : lowClear (addFlags a v r) := by
  unfold addFlags
  simp only [lowClear_lor, lowClear_ite_iff]
  refine ⟨⟨?_, ?_⟩, ?_⟩ <;>
    split_ifs <;> first | exact lc_x80 | exact lc_x20 | exact lc_x10 | exact lc_zero

theorem lc_adcFlags (a v c r : Nat) : lowClear (adcFlags a v c r) := by
  unfold adcFlags
  simp only [lowClear_lor, lowClear_ite_iff]
  refine ⟨⟨?_, ?_⟩, ?_⟩ <;>
    split_ifs <;> first | exact lc_x80 | exact lc_x20 | exact lc_x10 | exact lc_zero

theorem lc_subFlags (a v : Nat) (r : Int) : lowClear (subFlags a v r) := by
  unfold subFlags
  simp only [lowClear_lor, lowClear_ite_iff]
  refine ⟨⟨⟨lc_x40, ?_⟩, ?_⟩, ?_⟩ <;>
    split_ifs <;> first | exact lc_x80 | exact lc_x20 | exact lc_x10 | exact lc_zero

theorem lc_sbcFlags (a v c : Nat) (r : Int) : lowClear (sbcFlags a v c r) := by
  unfold sbcFlags
  simp only [lowClear_lor, lowClear_ite_iff]
  refine ⟨⟨⟨lc_x40, ?_⟩, ?_⟩, ?_⟩ <;>
    split_ifs <;> first | exact lc_x80 | exact lc_x20 | exact lc_x10 | exact lc_zero

theorem lc_spnFlags (sp n : Nat) : lowClear (spnFlags sp n) := by
  unfold spnFlags
  simp only [lowClear_lor, lowClear_ite_iff]
  refine ⟨?_, ?_⟩ <;>
    split_ifs <;> first | exact lc_x20 | exact lc_x10 | exact lc_zero

theorem lc_daaFun (a f : Nat) : lowClear ((daaFun a f).2) := by
  rw [daaFun_f_eq]
  simp only [lowClear_lor, lowClear_ite_iff]
  refine ⟨⟨lc_land_x40 f, ?_⟩, ?_⟩ <;>
    split_ifs <;> first | exact lc_x80 | exact lc_x10 | exact lc_zero

theorem lc_shl4_lor_z (c : Nat) (p : Prop) [Decidable p] :
    lowClear ((c <<< 4) ||| (if p then 0x80 else 0)) := by
  simp only [lowClear_lor, lowClear_ite_iff]
  exact ⟨lowClear_shl4 c, by split_ifs <;> first | exact lc_x80 | exact lc_zero⟩

end PyDMG

namespace PyDMG

theorem lc_aluFun (m : Mach) (op : Nat) : lowClear ((aluFun m op).cpu.f) := by
  unfold aluFun
  dsimp only
  simp only [apply_ite Mach.cpu, apply_ite CpuR.f]
  simp only [lowClear_ite_iff]
  simp [lc_addFlags, lc_adcFlags, lc_subFlags, lc_sbcFlags, lowClear_lor,
    lowClear_ite_iff, lc_x20, lc_x80, lc_zero, ite_self]

theorem cbWriteBack_cpu_f (m : Mach) (reg hl v : Nat) :
    (cbWriteBack m reg hl v).cpu.f = m.cpu.f := by
  unfold cbWriteBack
  split_ifs
  · exact cpuWrite_cpu_f _ _ _
  · exact setReg_cpu_f _ _ _

theorem lc_cbFun (m : Mach) (h : lowClear m.cpu.f) : lowClear ((cbFun m).cpu.f) := by
  unfold cbFun
  dsimp only
  simp only [apply_ite Mach.cpu, apply_ite CpuR.f, apply_ite (Prod.snd (α := Nat) (β := Nat)),
    apply_ite (Prod.snd (α := Nat) (β := Mach)),
    cbWriteBack_cpu_f, cpuWrite_cpu_f, setReg_cpu_f, cpuRead_cpu_f, getReg_cpu_f,
    cpuFetch_cpu_f]
  simp only [lowClear_ite_iff]
  simp [lc_shl4_lor_z, lowClear_lor, lowClear_ite_iff, lowClear_shl4,
    lc_land_x10, lc_x20, lc_x80, lc_zero, ite_self, h]

theorem lc_executeCxFx (m : Mach) (op : Nat) (h : lowClear m.cpu.f) :
    lowClear ((executeCxFx m op).cpu.f) := by
  unfold executeCxFx
  dsimp only
  simp only [apply_ite Mach.cpu, apply_ite CpuR.f,
    retIf_cpu_f, jpIf_cpu_f, callIf_cpu_f, callTo_cpu_f, popWord_cpu_f,
    pushWord_cpu_f, tick_cpu_f, cpuFetch_cpu_f, cpuFetchWord_cpu_f,
    cpuRead_cpu_f, cpuWrite_cpu_f]
  simp only [lowClear_ite_iff]
  simp [lc_addFlags, lc_adcFlags, lc_subFlags, lc_sbcFlags, lc_spnFlags,
    lc_land_xF0, lc_cbFun, lowClear_lor, lowClear_ite_iff,
    lc_x20, lc_x80, lc_zero, ite_self, h]

theorem lc_addHLrr (m : Mach) (rr : Nat) : lowClear ((addHLrr m rr).cpu.f) := by
  unfold addHLrr
  dsimp only
  simp only [tick_cpu_f]
  simp [lowClear_lor, lowClear_ite_iff, lc_land_x80, lc_x20, lc_x10, lc_zero, ite_self]

theorem lc_execute (m : Mach) (op : Nat) (h : lowClear m.cpu.f) :
    lowClear ((execute m op).cpu.f) := by
  unfold execute
  dsimp only
  simp only [apply_ite Mach.cpu, apply_ite CpuR.f,
    jrRel_cpu_f, haltFun_cpu_f, ldRR_cpu_f, tick_cpu_f, cpuFetch_cpu_f,
    cpuFetchWord_cpu_f, cpuRead_cpu_f, cpuWrite_cpu_f, popWord_cpu_f,
    pushWord_cpu_f]
  simp only [lowClear_ite_iff]
  simp [lc_inc8, lc_dec8, lc_daaFun, lc_addHLrr, lc_aluFun, lc_executeCxFx,
    lowClear_shl4, lowClear_lor, lowClear_ite_iff, lc_land_x80, lc_land_x10,
    lc_x10, lc_x20, lc_x60, lc_x80, lc_zero, ite_self, h]

theorem lc_fetchExec (m : Mach) (h : lowClear m.cpu.f) : lowClear ((fetchExec m).cpu.f) := by
  unfold fetchExec
  apply lc_execute
  rw [cpuFetch_cpu_f]
  exact h

theorem lc_haltedOrExec (m : Mach) (p : Nat) (h : lowClear m.cpu.f) :
    lowClear ((haltedOrExec m p).cpu.f) := by
  unfold haltedOrExec
  split_ifs
  · exact lc_fetchExec _ h
  · rw [tick_cpu_f]; exact h
  · exact lc_fetchExec m h

theorem lc_irqDispatch (m : Mach) (ifr p : Nat) (h : lowClear m.cpu.f) :
    lowClear ((irqDispatch m ifr p).cpu.f) := by
  unfold irqDispatch
  cases hI : irqIndex p
  · exact lc_haltedOrExec m p h
  · show lowClear ((serviceIrq m ifr _).cpu.f)
    rw [serviceIrq_cpu_f]
    exact h

theorem lc_stepF (m : Mach) (h : lowClear m.cpu.f) : lowClear ((stepF m).cpu.f) := by
  unfold stepF
  dsimp only
  split_ifs
  all_goals first
    | exact lc_irqDispatch _ _ _ h
    | exact lc_haltedOrExec _ _ h

/-- C7: the flag-register invariant `F & 0x0F == 0` is preserved by
every `CPU.step` from every machine state satisfying it — covering every
instruction, POP AF (which masks the popped byte with 0xF0), every
flag-writing ALU, rotate and DAA operation, and interrupt dispatch —
and it holds of the boot value F=0xB0, so it holds after every step of
every reachable state. -/
theorem f_low_nibble_always_zero (m : Mach) (h : lowClear m.cpu.f) :
    lowClear ((stepF m).cpu.f) ∧ lowClear 0xB0 :=
  ⟨lc_stepF m h, by unfold lowClear; decide⟩

/-- Witness for `f_low_nibble_always_zero` at the base machine. -/
theorem f_low_nibble_always_zero_witness :
    lowClear mach0.cpu.f ∧ (lowClear ((stepF mach0).cpu.f) ∧ lowClear 0xB0) :=
  ⟨by unfold lowClear; decide, f_low_nibble_always_zero mach0 (by unfold lowClear; decide)⟩

end PyDMG
